import Mathlib

/-!
Verification of the Veritas fact-checking backend (`veritas-backend/main.py`).

The Python pipeline is shallowly embedded: pure helpers become Lean functions,
calls to the external generation service become explicit outcome parameters,
raised exceptions become `Except` values, and Python floats are modelled as
exact rationals.
-/

namespace Veritas

/-- Model of a Python value as produced by `json.loads`
(floats modelled as exact rationals). -/
inductive PyVal where
  | str (s : String)
  | int (n : Int)
  | float (q : ℚ)
  | bool (b : Bool)
  | null
  | list (xs : List PyVal)
  | dict (kvs : List (String × PyVal))

/-- Python exception values the embedded code can raise.  The carried string
abstracts the runtime's message text (`str(e)`). -/
inductive PyError where
  | typeError (msg : String)
  | valueError (msg : String)
  | attributeError (msg : String)
  | validationError (msg : String)

/-- Model of Python `str(e)` on a caught exception. -/
def excStr : PyError → String
  | .typeError m => m
  | .valueError m => m
  | .attributeError m => m
  | .validationError m => m

/-- Python truthiness (`if value:`).  A float is truthy iff it is nonzero,
i.e. iff its numerator is. -/
def pyTruthy : PyVal → Bool
  | .str s => !s.data.isEmpty
  | .int n => n != 0
  | .float q => q.num != 0
  | .bool b => b
  | .null => false
  | .list xs => !xs.isEmpty
  | .dict kvs => !kvs.isEmpty

/-- `s[:n]` on a string (structural; Lean core `String.take` is not used so
that every definition evaluates inside the kernel). -/
def strTake (s : String) (n : ℕ) : String := String.mk (s.data.take n)

/-- Python `str.strip()` (whitespace from both ends). -/
def strTrim (s : String) : String :=
  String.mk (((s.data.dropWhile Char.isWhitespace).reverse.dropWhile Char.isWhitespace).reverse)

/-- Python `str.lower()`. -/
def strToLower (s : String) : String := String.mk (s.data.map Char.toLower)

/-- Python `str.startswith(t)`. -/
def strStartsWith (s t : String) : Bool := t.data.isPrefixOf s.data

/-- Python `sep.join(parts)` for string parts. -/
def joinSep (sep : String) : List String → String
  | [] => ""
  | [p] => p
  | p :: q :: rest => p ++ sep ++ joinSep sep (q :: rest)

/-- Helper of `splitOnChar`: current fragment is accumulated reversed. -/
def splitOnCharAux : Char → List Char → List Char → List String
  | _, [], w => [String.mk w.reverse]
  | sep, c :: rest, w =>
    if c = sep then String.mk w.reverse :: splitOnCharAux sep rest []
    else splitOnCharAux sep rest (c :: w)

/-- Python `s.split(sep)` for a one-character separator (keeps empty
fragments, like Python). -/
def splitOnChar (s : String) (sep : Char) : List String :=
  splitOnCharAux sep s.data []

/-- Helper of `strSplitWs`. -/
def splitWsAux : List Char → List Char → List String
  | [], w => if w.isEmpty then [] else [String.mk w.reverse]
  | c :: rest, w =>
    if c.isWhitespace then
      (if w.isEmpty then splitWsAux rest [] else String.mk w.reverse :: splitWsAux rest [])
    else splitWsAux rest (c :: w)

/-- Python `s.split()` with no argument: split on whitespace runs, dropping
empty fragments. -/
def strSplitWs (s : String) : List String := splitWsAux s.data []

/-- Helper of `strDelTok` (fuelled left-to-right scan). -/
def delTokAux : ℕ → List Char → List Char → List Char
  | 0, _, s => s
  | f + 1, tok, s =>
    if tok.isPrefixOf s then delTokAux f tok (s.drop tok.length)
    else
      match s with
      | [] => []
      | c :: rest => c :: delTokAux f tok rest

/-- Python `s.replace(tok, "")`: delete every occurrence of `tok`,
left to right. -/
def strDelTok (s tok : String) : String :=
  String.mk (delTokAux s.length tok.data s.data)

/-- Dictionary lookup; with duplicate keys the last binding wins, matching the
dict built by `json.loads`. -/
def pyDictFind (kvs : List (String × PyVal)) (key : String) : Option PyVal :=
  (kvs.reverse.find? (fun kv => kv.1 == key)).map (·.2)

/-- Python `d.get(key, dflt)`. -/
def pyDictGet (kvs : List (String × PyVal)) (key : String) (dflt : PyVal) : PyVal :=
  (pyDictFind kvs key).getD dflt

/-- JSON whitespace accepted by `json.loads`. -/
def isJsonWs (c : Char) : Bool :=
  c == ' ' || c == '\t' || c == '\n' || c == '\r'

/-- Drop leading JSON whitespace. -/
def skipWs : List Char → List Char
  | [] => []
  | c :: rest => if isJsonWs c then skipWs rest else c :: rest

/-- Value of a hexadecimal digit. -/
def hexDigitVal (c : Char) : Option Nat :=
  if '0' ≤ c ∧ c ≤ '9' then some (c.toNat - '0'.toNat)
  else if 'a' ≤ c ∧ c ≤ 'f' then some (c.toNat - 'a'.toNat + 10)
  else if 'A' ≤ c ∧ c ≤ 'F' then some (c.toNat - 'A'.toNat + 10)
  else Option.none

/-- Scan the body of a JSON string literal (after the opening quote), returning
the decoded characters and the input remaining after the closing quote.
Mirrors the lexical rules of `json.loads`: raw control characters are rejected
and escapes are the standard JSON ones. -/
def scanEsc (e : Char) : Option Char :=
  if e = '"' then some '"'
  else if e = '\\' then some '\\'
  else if e = '/' then some '/'
  else if e = 'b' then some (Char.ofNat 8)
  else if e = 'f' then some (Char.ofNat 12)
  else if e = 'n' then some '\n'
  else if e = 'r' then some (Char.ofNat 13)
  else if e = 't' then some '\t'
  else Option.none

def scanStr : List Char → Option (List Char × List Char)
  | [] => Option.none
  | c :: rest =>
    if c = '"' then some ([], rest)
    else if c = '\\' then
      (match rest with
       | 'u' :: a :: b :: c2 :: d :: rest2 =>
         (match hexDigitVal a, hexDigitVal b, hexDigitVal c2, hexDigitVal d with
          | some ha, some hb, some hc2, some hd =>
            (scanStr rest2).map
              (fun p => (Char.ofNat (((ha * 16 + hb) * 16 + hc2) * 16 + hd) :: p.1, p.2))
          | _, _, _, _ => Option.none)
       | e :: rest2 =>
         (match scanEsc e with
          | some c2 => (scanStr rest2).map (fun p => (c2 :: p.1, p.2))
          | Option.none => Option.none)
       | [] => Option.none)
    else if c.toNat < 32 then Option.none
    else (scanStr rest).map (fun p => (c :: p.1, p.2))

/-- Longest prefix of decimal digits. -/
def scanDigits : List Char → List Char × List Char
  | [] => ([], [])
  | c :: rest =>
    if c.isDigit then
      let (ds, r) := scanDigits rest
      (c :: ds, r)
    else ([], c :: rest)

/-- Numeric value of a digit list. -/
def digitsToNat (ds : List Char) : Nat :=
  ds.foldl (fun acc c => acc * 10 + (c.toNat - '0'.toNat)) 0

/-- Scan a JSON number.  Integers stay `PyVal.int`; numbers with a fraction or
exponent become `PyVal.float` (an exact rational). -/
def scanNumber (s : List Char) : Option (PyVal × List Char) :=
  let (neg, s₁) := match s with
    | '-' :: r => (true, r)
    | _ => (false, s)
  match s₁ with
  | [] => Option.none
  | c :: _ =>
    if ¬ c.isDigit then Option.none
    else
      let (ids, s₂) := scanDigits s₁
      if ids.length > 1 ∧ ids.headD '0' = '0' then Option.none
      else
        let intPart := digitsToNat ids
        let (hasFrac, fds, s₃) := match s₂ with
          | '.' :: r =>
            let (ds, r') := scanDigits r
            (true, ds, r')
          | _ => (false, ([] : List Char), s₂)
        if hasFrac ∧ fds = [] then Option.none
        else
          let (hasExp, expNeg, eds, s₄) := match s₃ with
            | 'e' :: r | 'E' :: r =>
              (match r with
               | '+' :: r' => let (ds, r'') := scanDigits r'; (true, false, ds, r'')
               | '-' :: r' => let (ds, r'') := scanDigits r'; (true, true, ds, r'')
               | _ => let (ds, r'') := scanDigits r; (true, false, ds, r''))
            | _ => (false, false, ([] : List Char), s₃)
          if hasExp ∧ eds = [] then Option.none
          else if ¬ hasFrac ∧ ¬ hasExp then
            some (.int (if neg then -(intPart : Int) else (intPart : Int)), s₂)
          else
            let allDigits := digitsToNat (ids ++ fds)
            let expPos := if expNeg then 0 else digitsToNat eds
            let expNegVal := if expNeg then digitsToNat eds else 0
            let num : Int :=
              (if neg then -(allDigits : Int) else (allDigits : Int)) * (10 : Int) ^ expPos
            let den : ℕ := 10 ^ (fds.length + expNegVal)
            some (.float (mkRat num den), s₄)

mutual

/-- Fuelled JSON value parser (the recursive core of the `json.loads` model). -/
def parseJsonVal : Nat → List Char → Option (PyVal × List Char)
  | 0, _ => Option.none
  | fuel + 1, s =>
    match skipWs s with
    | [] => Option.none
    | c :: rest =>
      if c = '{' then
        (match skipWs rest with
         | c2 :: r2 =>
           if c2 = '}' then some (.dict [], r2) else parseJsonMembers fuel (c2 :: r2) []
         | [] => parseJsonMembers fuel [] [])
      else if c = '[' then
        (match skipWs rest with
         | c2 :: r2 =>
           if c2 = ']' then some (.list [], r2) else parseJsonElems fuel (c2 :: r2) []
         | [] => parseJsonElems fuel [] [])
      else if c = '"' then (scanStr rest).map (fun p => (.str (String.mk p.1), p.2))
      else if c = 't' then
        (match rest with
         | 'r' :: 'u' :: 'e' :: r2 => some (.bool true, r2)
         | _ => Option.none)
      else if c = 'f' then
        (match rest with
         | 'a' :: 'l' :: 's' :: 'e' :: r2 => some (.bool false, r2)
         | _ => Option.none)
      else if c = 'n' then
        (match rest with
         | 'u' :: 'l' :: 'l' :: r2 => some (.null, r2)
         | _ => Option.none)
      else scanNumber (c :: rest)

/-- Parse the members of a JSON object after its opening brace. -/
def parseJsonMembers : Nat → List Char → List (String × PyVal) →
    Option (PyVal × List Char)
  | 0, _, _ => Option.none
  | fuel + 1, s, acc =>
    match skipWs s with
    | c :: rest =>
      if c = '"' then
        (match scanStr rest with
         | some (k, r1) =>
           (match skipWs r1 with
            | c2 :: r2 =>
              if c2 = ':' then
                (match parseJsonVal fuel r2 with
                 | some (v, r3) =>
                   (match skipWs r3 with
                    | c3 :: r4 =>
                      if c3 = ',' then parseJsonMembers fuel r4 (acc ++ [(String.mk k, v)])
                      else if c3 = '}' then some (.dict (acc ++ [(String.mk k, v)]), r4)
                      else Option.none
                    | [] => Option.none)
                 | Option.none => Option.none)
              else Option.none
            | [] => Option.none)
         | Option.none => Option.none)
      else Option.none
    | [] => Option.none

/-- Parse the elements of a JSON array after its opening bracket. -/
def parseJsonElems : Nat → List Char → List PyVal → Option (PyVal × List Char)
  | 0, _, _ => Option.none
  | fuel + 1, s, acc =>
    match parseJsonVal fuel s with
    | some (v, r1) =>
      (match skipWs r1 with
       | c2 :: r2 =>
         if c2 = ',' then parseJsonElems fuel r2 (acc ++ [v])
         else if c2 = ']' then some (.list (acc ++ [v]), r2)
         else Option.none
       | [] => Option.none)
    | Option.none => Option.none

end

/-- Model of `json.loads`: parse a complete JSON document.  The fuel comfortably
exceeds the number of parsing steps possible on the input (every step of the
fuelled parser consumes input). -/
def pyJsonLoads (s : String) : Option PyVal :=
  match parseJsonVal (2 * s.length + 2) s.data with
  | some (v, rest) => if skipWs rest = [] then some v else Option.none
  | Option.none => Option.none

/-- Digits of a positive natural number (fuelled division loop). -/
def natDigsAux : ℕ → ℕ → List Char
  | 0, _ => []
  | _ + 1, 0 => []
  | fuel + 1, n + 1 =>
    natDigsAux fuel ((n + 1) / 10) ++ [Char.ofNat (48 + (n + 1) % 10)]

/-- Decimal digits of a natural number (never empty). -/
def natDigs (n : ℕ) : List Char :=
  if n = 0 then ['0'] else natDigsAux n n

/-- Decimal string of a natural number. -/
def natStr (n : ℕ) : String := String.mk (natDigs n)

/-- Decimal string of an integer. -/
def pyIntStr (n : Int) : String :=
  (if n < 0 then "-" else "") ++ natStr n.natAbs

/-- Best-effort model of Python `str` on a float: decimal expansion truncated
to 17 places (Python's shortest-repr subtleties are not modelled; no claim
depends on this text). -/
def pyFloatStr (q : ℚ) : String :=
  if q.den = 1 then pyIntStr q.num ++ ".0"
  else
    let sgn := if q.num < 0 then "-" else ""
    let n := q.num.natAbs
    let d := q.den
    let ip := n / d
    let fracDigits := n % d * 10 ^ 17 / d
    let fs := natStr fracDigits
    let padded := String.mk (List.replicate (17 - fs.length) '0') ++ fs
    let trimmed := String.mk ((padded.data.reverse.dropWhile (· = '0')).reverse)
    let trimmed := if trimmed.data.isEmpty then "0" else trimmed
    sgn ++ natStr ip ++ "." ++ trimmed

mutual

/-- Model of Python `repr` on a JSON-derived value (string escaping elided;
only used to build display text, never re-parsed). -/
def pyRepr : PyVal → String
  | .str s => "\x27" ++ s ++ "\x27"
  | .int n => pyIntStr n
  | .float q => pyFloatStr q
  | .bool b => if b then "True" else "False"
  | .null => "None"
  | .list xs => "[" ++ pyReprList xs ++ "]"
  | .dict kvs => "\x7b" ++ pyReprDict kvs ++ "\x7d"

/-- `repr` of list elements, comma separated. -/
def pyReprList : List PyVal → String
  | [] => ""
  | [x] => pyRepr x
  | x :: y :: rest => pyRepr x ++ ", " ++ pyReprList (y :: rest)

/-- `repr` of dict items, comma separated. -/
def pyReprDict : List (String × PyVal) → String
  | [] => ""
  | [(k, v)] => "\x27" ++ k ++ "\x27: " ++ pyRepr v
  | (k, v) :: kv :: rest => "\x27" ++ k ++ "\x27: " ++ pyRepr v ++ ", " ++ pyReprDict (kv :: rest)

end

/-- Model of Python `str()`. -/
def pyStr : PyVal → String
  | .str s => s
  | v => pyRepr v

/-- Python iteration (`for x in v`): lists yield elements, strings yield
1-character strings, dicts yield their keys; other values raise `TypeError`. -/
def pyIterate : PyVal → Except PyError (List PyVal)
  | .list xs => .ok xs
  | .str s => .ok (s.data.map (fun c => .str (String.singleton c)))
  | .dict kvs => .ok (kvs.map (fun kv => .str kv.1))
  | _ => .error (.typeError "object is not iterable")

/-- Python `sep.join(v)`: iterates `v`; every item must be a string. -/
def pyJoin (sep : String) (v : PyVal) : Except PyError String := do
  let items ← pyIterate v
  let strs ← items.mapM (fun it => match it with
    | .str s => Except.ok s
    | _ => Except.error (PyError.typeError "sequence item: expected str instance"))
  return joinSep sep strs

/-- Python `v[:n]` on strings and lists; other values raise `TypeError`. -/
def pySliceTo (v : PyVal) (n : ℕ) : Except PyError PyVal :=
  match v with
  | .str s => .ok (.str (strTake s n))
  | .list xs => .ok (.list (xs.take n))
  | _ => .error (.typeError "object is not subscriptable")

/-- Digit-list to `ℕ` when all characters are digits. -/
def digitsOf (ds : List Char) : Option ℕ :=
  if ds ≠ [] ∧ ds.all Char.isDigit then some (digitsToNat ds) else Option.none

/-- Integer literal parse used by `int(str)`. -/
def intOfString (s : String) : Option Int :=
  match s.data with
  | '-' :: ds => (digitsOf ds).map (fun n => -(n : Int))
  | '+' :: ds => (digitsOf ds).map (fun n => (n : Int))
  | ds => (digitsOf ds).map (fun n => (n : Int))

/-- Python `int(v)`: ints pass through, floats truncate toward zero, numeric
strings parse, everything else raises. -/
def pyInt : PyVal → Except PyError Int
  | .int n => .ok n
  | .bool b => .ok (if b then 1 else 0)
  | .float q => .ok (q.num.tdiv q.den)
  | .str s =>
    (match intOfString (strTrim s) with
     | some n => .ok n
     | Option.none => .error (.valueError "invalid literal for int()"))
  | _ => .error (.typeError "int() argument must be a string or a number")

/-- Float literal parse used by `float(str)` (leading zeros allowed). -/
def floatOfChars (s : List Char) : Option ℚ :=
  let (neg, s₁) := match s with
    | '-' :: r => (true, r)
    | '+' :: r => (false, r)
    | _ => (false, s)
  let (ids, s₂) := scanDigits s₁
  let (hasDot, fds, s₃) := match s₂ with
    | '.' :: r =>
      let (ds, r') := scanDigits r
      (true, ds, r')
    | _ => (false, ([] : List Char), s₂)
  if ids = [] ∧ fds = [] then Option.none
  else
    let (hasExp, expNeg, eds, s₄) := match s₃ with
      | 'e' :: r | 'E' :: r =>
        (match r with
         | '+' :: r' => let (ds, r'') := scanDigits r'; (true, false, ds, r'')
         | '-' :: r' => let (ds, r'') := scanDigits r'; (true, true, ds, r'')
         | _ => let (ds, r'') := scanDigits r; (true, false, ds, r''))
      | _ => (false, false, ([] : List Char), s₃)
    if hasExp ∧ eds = [] then Option.none
    else if s₄ ≠ [] then Option.none
    else if ¬ hasDot ∧ ¬ hasExp ∧ ids = [] then Option.none
    else
      let allDigits := digitsToNat (ids ++ fds)
      let expPos := if expNeg then 0 else digitsToNat eds
      let expNegVal := if expNeg then digitsToNat eds else 0
      let num : Int :=
        (if neg then -(allDigits : Int) else (allDigits : Int)) * (10 : Int) ^ expPos
      let den : ℕ := 10 ^ (fds.length + expNegVal)
      some (mkRat num den)

/-- Python `float(v)`. -/
def pyFloat : PyVal → Except PyError ℚ
  | .float q => .ok q
  | .int n => .ok (n : ℚ)
  | .bool b => .ok (if b then 1 else 0)
  | .str s =>
    (match floatOfChars (strTrim s).data with
     | some q => .ok q
     | Option.none => .error (.valueError "could not convert string to float"))
  | _ => .error (.typeError "float() argument must be a string or a number")

/-- Substring containment (`needle in haystack` on Python strings). -/
def listContainsSub (needle haystack : List Char) : Bool :=
  match haystack with
  | [] => needle.isEmpty
  | _ :: rest => needle.isPrefixOf haystack || listContainsSub needle rest

/-- `needle in haystack` for strings. -/
def strContains (haystack needle : String) : Bool :=
  listContainsSub needle.data haystack.data

/-- Model of `re.sub(tok + r'\s*', '', s)` for a literal token: delete every
occurrence of the token together with the whitespace run following it
(used to strip ```` ```json ```` and ```` ``` ```` fences). -/
def subTokWsAux : ℕ → List Char → List Char → List Char
  | 0, _, s => s
  | f + 1, tok, s =>
    if tok.isPrefixOf s then
      subTokWsAux f tok ((s.drop tok.length).dropWhile Char.isWhitespace)
    else
      match s with
      | [] => []
      | c :: rest => c :: subTokWsAux f tok rest

/-- String-level wrapper for `subTokWsAux`. -/
def subTokWs (tok s : String) : String :=
  String.mk (subTokWsAux s.length tok.data s.data)

/-- Rest of the input after the first occurrence of `c`, if any. -/
def dropThroughChar (c : Char) : List Char → Option (List Char)
  | [] => Option.none
  | x :: rest => if x = c then some rest else dropThroughChar c rest

/-- Deletion of delimiter-bounded groups, modelling the regexes
`\x7b[^\x7d]*\x7d` and `\[[^\]]*\]` with empty replacement: each match runs
from an opening delimiter through the first closing delimiter after it. -/
def subDelimAux : ℕ → Char → Char → List Char → List Char
  | 0, _, _, s => s
  | f + 1, o, c, s =>
    match s with
    | [] => []
    | x :: rest =>
      if x = o then
        match dropThroughChar c rest with
        | some rest2 => subDelimAux f o c rest2
        | Option.none => x :: subDelimAux f o c rest
      else x :: subDelimAux f o c rest

/-- Model of `re.sub(r'"[^"]*":', '', s)`: delete quoted keys followed by a
colon. -/
def subQuotedKeysAux : ℕ → List Char → List Char
  | 0, s => s
  | f + 1, s =>
    match s with
    | [] => []
    | '"' :: rest =>
      (match dropThroughChar '"' rest with
       | some (':' :: rest2) => subQuotedKeysAux f rest2
       | _ => '"' :: subQuotedKeysAux f rest)
    | c :: rest => c :: subQuotedKeysAux f rest

/-- Model of `re.sub(r'[:,\x7b\x7d\[\]"]', ' ', s)`. -/
def jsonPunctToSpace (s : List Char) : List Char :=
  s.map (fun c =>
    if c = ':' ∨ c = ',' ∨ c = '{' ∨ c = '}' ∨ c = '[' ∨ c = ']' ∨ c = '"' then ' ' else c)

/-- Model of `re.sub(r'\s+', ' ', s)`. -/
def collapseWsAux : ℕ → List Char → List Char
  | 0, s => s
  | _ + 1, [] => []
  | f + 1, c :: rest =>
    if c.isWhitespace then ' ' :: collapseWsAux f (rest.dropWhile Char.isWhitespace)
    else c :: collapseWsAux f rest

/-- The five semantic keys probed in order by `clean_json_response`. -/
def readableKeys : List String :=
  ["summary", "detailed_analysis", "analysis", "explanation", "description"]

/-- The readable-part collection loop of `clean_json_response` (lines 41-43):
append `str(parsed[key])` for every semantic key that is present and
truthy. -/
def readableParts (kvs : List (String × PyVal)) : List String :=
  readableKeys.foldl (fun acc key =>
    match pyDictFind kvs key with
    | some v => if pyTruthy v then acc ++ [pyStr v] else acc
    | Option.none => acc) []

/-- `clean_json_response` (main.py lines 24-68, identical in
`json_cleaner.py`): strip code fences, try a JSON parse; on a mapping, collect
readable parts (semantic keys, evidence, credibility); otherwise scrub JSON
artifacts from the raw text.  The `', '.join` over the evidence value can
raise `TypeError`, which nothing in the function catches. -/
def clean_json_response (response_text : String) : Except PyError String := do
  let t := subTokWs "```json" response_text
  let t := subTokWs "```" t
  match pyJsonLoads t with
  | some (.dict kvs) =>
    let parts := readableParts kvs
    let parts ← match pyDictFind kvs "key_evidence_points" with
      | some v =>
        if pyTruthy v then do
          let evidence ← pyJoin ", " v
          pure (parts ++ ["Evidence: " ++ evidence])
        else pure parts
      | Option.none => pure parts
    let parts := match pyDictFind kvs "credibility_assessment" with
      | some v => if pyTruthy v then parts ++ ["Credibility: " ++ pyStr v] else parts
      | Option.none => parts
    if parts.isEmpty then return t
    else return joinSep ". " parts
  | _ =>
    let cleaned := subDelimAux t.length '{' '}' t.data
    let cleaned := subDelimAux cleaned.length '[' ']' cleaned
    let cleaned := subQuotedKeysAux cleaned.length cleaned
    let cleaned := jsonPunctToSpace cleaned
    let cleaned := collapseWsAux cleaned.length cleaned
    let cleaned := strTrim (String.mk cleaned)
    if cleaned.data.isEmpty then return "Analysis completed."
    else return cleaned

/-- The known-false claim indicators (main.py lines 202-205). -/
def false_indicators : List String :=
  ["flat earth", "earth is flat", "vaccines cause autism", "microchips in vaccines",
   "5g causes cancer", "moon landing fake", "chemtrails", "nasa hiding"]

/-- The known-true claim indicators (main.py lines 208-210). -/
def true_indicators : List String :=
  ["water boils at 100", "paris capital france", "earth round", "vaccines prevent disease"]

/-- The claim text `_create_fallback_analysis` recovers from the prompt
(lines 187-196): the first `Claim:`-marked line if the marker occurs, else the
prompt truncated to 200 characters. -/
def claimTextOf (prompt : String) : String :=
  let fromMarker :=
    if strContains prompt "Claim:" then
      match (splitOnChar prompt '\n').find?
          (fun line => strStartsWith (strTrim line) "Claim:") with
      | some line => strTrim (strDelTok line "Claim:")
      | Option.none => ""
    else ""
  if fromMarker = "" then
    (if prompt.length > 200 then strTake prompt 200 ++ "..." else prompt)
  else fromMarker

/-- Verdict, confidence text and analysis sentence chosen by the keyword scan
in `_create_fallback_analysis` (lines 212-225). -/
def fallbackAssessment (claim_lower : String) : String × String × String :=
  if false_indicators.any (fun ind => strContains claim_lower ind) then
    ("Contradicted", "0.8",
     "Limited analysis due to API constraints. This appears to be a commonly debunked claim.")
  else if true_indicators.any (fun ind => strContains claim_lower ind) then
    ("Supported", "0.8",
     "Limited analysis due to API constraints. This appears to be a well-established fact.")
  else
    ("InsufficientInfo", "0.5",
     "Limited analysis due to API constraints. Unable to verify due to API limitations.")

/-- `_create_fallback_analysis` (lines 180-236): the JSON-shaped text returned
when the generation service stays unavailable.  Faithful to the source
f-string, including the unescaped interpolation of the 30-character claim
snippet into the search-suggestion string literals. -/
def _create_fallback_analysis (prompt : String) : String :=
  let claim_text := claimTextOf prompt
  let (verdict, conf, analysis) := fallbackAssessment (strToLower claim_text)
  let snip := strTake claim_text 30
  "\x7b\n        \"verdict\": \"" ++ verdict
    ++ "\",\n        \"confidence_score\": " ++ conf
    ++ ",\n        \"detailed_analysis\": \"" ++ analysis
    ++ "\",\n        \"search_suggestions\": [\"verify " ++ snip
    ++ "\", \"fact check " ++ snip
    ++ "\"],\n        \"key_evidence_points\": [\"Analysis limited due to API constraints\"],"
    ++ "\n        \"credibility_assessment\": \"Limited assessment available\","
    ++ "\n        \"context_factors\": \"API rate limiting prevented full analysis\"\n    \x7d"

/-- Outcome of one attempt of the external generation call. -/
inductive GenOutcome where
  | ok (text : String)
  | err (rateLimit : Bool)

/-- The retry rounds of `query_gemini_text` (lines 139-175): final text, the
list of sleeps performed (seconds), and the number of attempts made.
`attempt` is the 0-based index of the current attempt; `remaining` counts the
attempts still allowed.  A rate-limit error sleeps `2^attempt * 2`, any other
error sleeps 1, and the last allowed attempt returns the fallback text with no
sleep. -/
def geminiRetryLoop (upstream : ℕ → GenOutcome) (prompt : String) :
    ℕ → ℕ → String × List ℕ × ℕ
  | _, 0 => (_create_fallback_analysis prompt, [], 0)
  | attempt, remaining + 1 =>
    match upstream attempt with
    | .ok t => (t, [], 1)
    | .err rl =>
      if remaining = 0 then (_create_fallback_analysis prompt, [], 1)
      else
        let w := if rl then 2 ^ attempt * 2 else 1
        let (t, ws, n) := geminiRetryLoop upstream prompt (attempt + 1) remaining
        (t, w :: ws, n + 1)

/-- `query_gemini_text` (lines 135-178) with the generation call abstracted as
the per-attempt outcome function `upstream`. -/
def query_gemini_text (upstream : ℕ → GenOutcome) (prompt : String)
    (max_retries : ℕ := 3) : String × List ℕ × ℕ :=
  geminiRetryLoop upstream prompt 0 max_retries

/-- `ClaimAnalysis` pydantic model (lines 289-292). -/
structure ClaimAnalysis where
  claim : String
  verdict : String
  explanation : String

/-- `AnalysisResponse` pydantic model (lines 294-299). -/
structure AnalysisResponse where
  score : Int
  overallVerdict : String
  summary : String
  breakdown : List ClaimAnalysis
  context : Option String

/-- The labels admitted by `ClaimAnalysis.verdict`'s `Literal` type
(line 291).  The fact-check prompt's fourth label `"Mixed"` is absent. -/
def allowedClaimVerdicts : List String := ["Contradicted", "Supported", "InsufficientInfo"]

/-- pydantic validation performed by `ClaimAnalysis(...)` when the verdict
comes from parsed JSON: it must be one of the `Literal` strings, otherwise
`ValidationError` is raised. -/
def mkClaimAnalysis (claim : String) (verdict : PyVal) (explanation : String) :
    Except PyError ClaimAnalysis :=
  match verdict with
  | .str v =>
    if v ∈ allowedClaimVerdicts then .ok ⟨claim, v, explanation⟩
    else .error (.validationError ("verdict: unexpected value: " ++ v))
  | _ => .error (.validationError "verdict: input should be a valid string")

/-- pydantic validation of a `str` field: non-strings are rejected. -/
def pyAsStr : PyVal → Except PyError String
  | .str s => .ok s
  | _ => .error (.validationError "input should be a valid string")

/-- Python `v + s` for a string right operand: only a string left operand
supports it. -/
def pyStrAdd (v : PyVal) (s : String) : Except PyError PyVal :=
  match v with
  | .str t => .ok (.str (t ++ s))
  | _ => .error (.typeError "unsupported operand types for +")

/-- The body of the per-claim `try` block (lines 617-657): parse the
fact-check response, build the explanation, and validate the `ClaimAnalysis`.
Internal failures (non-mapping JSON, bad field types, a verdict outside the
three-label `Literal`) surface as `PyError`s. -/
def processClaimCore (claim fact_check_response : String) :
    Except PyError ClaimAnalysis := do
  match pyJsonLoads fact_check_response with
  | some parsed => do
    let kvs ← match parsed with
      | .dict kvs => Except.ok kvs
      | _ => Except.error (PyError.attributeError "object has no attribute get")
    let verdict := pyDictGet kvs "verdict" (.str "InsufficientInfo")
    let _confidence ← pyFloat (pyDictGet kvs "confidence_score" (.float (mkRat 1 2)))
    let detailed_analysis := pyDictGet kvs "detailed_analysis" (.str "No analysis available")
    let evidence_points := pyDictGet kvs "key_evidence_points" (.list [])
    let credibility := pyDictGet kvs "credibility_assessment" (.str "")
    let daSlice ← pySliceTo detailed_analysis 200
    let explanation := "Analysis: " ++ pyStr daSlice
    let explanation ←
      if pyTruthy evidence_points then do
        let ev2 ← pySliceTo evidence_points 2
        let j ← pyJoin "; " ev2
        pure (explanation ++ " | Evidence: " ++ j)
      else pure explanation
    let explanation ←
      if pyTruthy credibility then do
        let c ← pySliceTo credibility 100
        pure (explanation ++ " | Credibility: " ++ pyStr c)
      else pure explanation
    mkClaimAnalysis claim verdict explanation
  | Option.none => do
    let response_lower := strToLower fact_check_response
    let verdict :=
      if ["false", "incorrect", "misleading", "contradicted"].any
          (fun w => strContains response_lower w) then "Contradicted"
      else if ["true", "accurate", "supported", "verified"].any
          (fun w => strContains response_lower w) then "Supported"
      else "InsufficientInfo"
    let explanation ← clean_json_response fact_check_response
    mkClaimAnalysis claim (.str verdict) explanation

/-- One iteration of the claim loop (lines 616-665): any exception from the
body is converted into an `InsufficientInfo` entry naming the failure. -/
def processClaim (claim fact_check_response : String) : ClaimAnalysis :=
  match processClaimCore claim fact_check_response with
  | .ok ca => ca
  | .error e => ⟨claim, "InsufficientInfo", "Error during analysis: " ++ excStr e⟩

/-- Sentence-splitting fallback of claim extraction (lines 561, 572): split on
periods, strip, keep sentences longer than 20 characters. -/
def sentenceSplit (text_to_analyze : String) : List String :=
  (splitOnChar text_to_analyze '.').filterMap (fun s =>
    let t := strTrim s
    if t.length > 20 then some t else Option.none)

/-- Claim extraction (lines 550-573) given the extraction response text:
parse a `"claims"` list, keep string entries longer than 10 characters when
stripped, and fall back to sentence splitting (with the too-brief placeholder
only on the parsed path).  Iterating a non-iterable `"claims"` value or
calling `.get` on non-mapping JSON raises. -/
def extractClaims (text_to_analyze claims_response : String) :
    Except PyError (List String) := do
  match pyJsonLoads claims_response with
  | some parsed => do
    let kvs ← match parsed with
      | .dict kvs => Except.ok kvs
      | _ => Except.error (PyError.attributeError "object has no attribute get")
    let rawClaims := pyDictGet kvs "claims" (.list [])
    let items ← pyIterate rawClaims
    let claims := items.filterMap (fun it => match it with
      | .str s => if (strTrim s).length > 10 then some s else Option.none
      | _ => Option.none)
    if claims.isEmpty then
      let sentences := sentenceSplit text_to_analyze
      let claims :=
        if sentences.isEmpty then [strTake text_to_analyze 200] else sentences.take 3
      let claims :=
        if claims.length = 0 ∨ (claims.length = 1 ∧ (claims.headD "").length < 50) then
          ["The provided content may be too brief or lack specific factual claims that can be verified."]
        else claims
      return claims
    else return claims
  | Option.none =>
    let sentences := sentenceSplit text_to_analyze
    return (if sentences.isEmpty then [strTake text_to_analyze 200] else sentences.take 3)

/-- Number of breakdown entries carrying the given verdict
(the `sum(1 for item in breakdown if item.verdict == v)` counters). -/
def verdictCount (breakdown : List ClaimAnalysis) (v : String) : ℕ :=
  (breakdown.filter (fun item => item.verdict = v)).length

/-- The deterministic score/verdict table of the JSON-parse-failure fallback
in `synthesize_final_report` (lines 741-769).  The source's float comparison
`contradicted_count / total_claims >= 0.8` (etc.) is modelled exactly by
cross-multiplication, `10 * count ≥ 8 * total`; the equivalence with the
rational-ratio reading is proved in `fallback_table_is_count_function`. -/
def fallbackScoreVerdict (breakdown : List ClaimAnalysis) : Int × String :=
  let supported_count := verdictCount breakdown "Supported"
  let contradicted_count := verdictCount breakdown "Contradicted"
  let total_claims := breakdown.length
  if total_claims = 0 then (0, "Insufficient Information")
  else
    if 10 * contradicted_count ≥ 8 * total_claims then (15, "False")
    else if 10 * contradicted_count ≥ 6 * total_claims then (35, "Mostly False")
    else if 10 * supported_count ≥ 8 * total_claims then (85, "True")
    else if 10 * supported_count ≥ 6 * total_claims then (72, "Mostly True")
    else (50, "Mixed")

/-- The summary text of the parse-failure fallback (lines 750 and 771); the
embedded `clean_json_response` call can raise. -/
def fallbackSummary (breakdown : List ClaimAnalysis) (response : String) :
    Except PyError String := do
  let supported_count := verdictCount breakdown "Supported"
  let contradicted_count := verdictCount breakdown "Contradicted"
  let insufficient_count := verdictCount breakdown "InsufficientInfo"
  let total_claims := breakdown.length
  if total_claims = 0 then
    return "No factual claims could be identified in the provided content."
  else
    let cleaned ← clean_json_response response
    return "Analysis of " ++ natStr total_claims ++ " claims: " ++ natStr supported_count
      ++ " supported, " ++ natStr contradicted_count ++ " contradicted, "
      ++ natStr insufficient_count ++ " inconclusive. " ++ strTake cleaned 200 ++ "..."

/-- The emergency fallback of `synthesize_final_report` (lines 777-805), run
when the synthesis body raises: decided by comparing the two verdict-count
ratios, not by the parse-failure threshold table. -/
def emergencyFallback (breakdown : List ClaimAnalysis) : Int × String × String :=
  let supported_count := verdictCount breakdown "Supported"
  let contradicted_count := verdictCount breakdown "Contradicted"
  let insufficient_count := verdictCount breakdown "InsufficientInfo"
  let total_claims := breakdown.length
  if total_claims = 0 then
    (50, "Insufficient Information",
     "We couldn\x27t identify specific factual claims to verify in this content. This might be due to the content being opinion-based, too general, or requiring more context. Try providing more specific factual statements for better analysis.")
  else
    -- The source compares `contradicted_ratio > supported_ratio`, ratios over
    -- the same positive denominator `total_claims`; this is exactly
    -- `contradicted_count > supported_count` (see `ratio_gt_iff_count_gt`).
    let (score, overall_verdict, enhanced_summary) :=
      if contradicted_count > supported_count then
        ((30 : Int), "Mostly False",
         "Our analysis found issues with " ++ natStr contradicted_count ++ " out of "
           ++ natStr total_claims
           ++ " claims. While some information might be accurate, significant portions appear to contradict established facts.")
      else if supported_count > contradicted_count then
        ((70 : Int), "Mostly True",
         "Most claims (" ++ natStr supported_count ++ " out of " ++ natStr total_claims
           ++ ") appear to be supported by available evidence. However, some aspects require further verification.")
      else
        ((50 : Int), "Mixed",
         "The content contains a mix of accurate and questionable information. Out of "
           ++ natStr total_claims ++ " claims analyzed, " ++ natStr supported_count
           ++ " were supported and " ++ natStr contradicted_count ++ " were contradicted.")
    let enhanced_summary :=
      if insufficient_count > 0 then
        enhanced_summary ++ " Note: " ++ natStr insufficient_count
          ++ " claims could not be verified due to insufficient reliable information available."
      else enhanced_summary
    (score, overall_verdict, enhanced_summary)

/-- The primary body of `synthesize_final_report`'s inner `try`
(lines 724-736): read the parsed record's fields and build score, verdict and
summary.  The verdict and summary stay unvalidated `PyVal`s until the
`AnalysisResponse` construction. -/
def synthPrimary (kvs : List (String × PyVal)) :
    Except PyError (Int × PyVal × PyVal) := do
  let overall_verdict := pyDictGet kvs "overall_verdict" (.str "Mixed")
  let score ← pyInt (pyDictGet kvs "credibility_score" (.int 50))
  let summary := pyDictGet kvs "summary" (.str "Analysis completed")
  let key_findings := pyDictGet kvs "key_findings" (.list [])
  let _reliability := pyDictGet kvs "reliability_indicators" (.str "")
  let recommendation := pyDictGet kvs "recommendation" (.str "")
  let enhanced_summary := summary
  let enhanced_summary ←
    if pyTruthy key_findings then do
      let kf2 ← pySliceTo key_findings 2
      let j ← pyJoin "; " kf2
      pyStrAdd enhanced_summary (" Key findings: " ++ j)
    else pure enhanced_summary
  let enhanced_summary ←
    if pyTruthy recommendation then
      pyStrAdd enhanced_summary (" " ++ pyStr recommendation)
    else pure enhanced_summary
  return (score, overall_verdict, enhanced_summary)

/-- The attempt body of `synthesize_final_report` (lines 678-771, the `try`
at line 716) with the generation call abstracted as `call` (the text it
returned, or the exception it raised).  The inner handler catches only
`json.JSONDecodeError` (line 738); any other exception escapes this attempt
and reaches the emergency fallback. -/
def synthAttempt (breakdown : List ClaimAnalysis) (call : Except PyError String) :
    Except PyError (Int × PyVal × PyVal) := do
  let response ← call
  match pyJsonLoads response with
  | some (.dict kvs) => synthPrimary kvs
  | some _ => Except.error (PyError.attributeError "object has no attribute get")
  | Option.none => do
    let (score, overall_verdict) := fallbackScoreVerdict breakdown
    let enhanced_summary ← fallbackSummary breakdown response
    pure (score, PyVal.str overall_verdict, PyVal.str enhanced_summary)

/-- `synthesize_final_report`, continued: resolve the attempt against the
emergency fallback, then construct the `AnalysisResponse` (line 807) outside
both handlers, where pydantic validates the verdict and summary fields. -/
def synthesize_final_report (breakdown : List ClaimAnalysis) (context : String)
    (call : Except PyError String) : Except PyError AnalysisResponse := do
  let resolved : Int × PyVal × PyVal :=
    match synthAttempt breakdown call with
    | .ok x => x
    | .error _ =>
      ((emergencyFallback breakdown).1, PyVal.str (emergencyFallback breakdown).2.1,
       PyVal.str (emergencyFallback breakdown).2.2)
  let overallVerdict ← pyAsStr resolved.2.1
  let summary ← pyAsStr resolved.2.2
  return ⟨resolved.1, overallVerdict, summary, breakdown, some context⟩

/-- HTTP-level failure (status code and detail text). -/
structure HttpExc where
  status : ℕ
  detail : String

/-- `run_fact_checking_engine` (lines 520-675): extraction, the per-claim
loop, synthesis.  The generation calls are abstracted by the response texts
they return (`query_gemini_text` itself never raises).  Any exception inside
becomes an `HTTPException(500)` (line 675). -/
def run_fact_checking_engine (text_to_analyze initial_context : String)
    (claims_response : String) (fact_check_responses : ℕ → String)
    (synth_call : Except PyError String) : Except HttpExc AnalysisResponse :=
  let body : Except PyError AnalysisResponse := do
    let claims ← extractClaims text_to_analyze claims_response
    let verified_breakdown :=
      claims.enum.map (fun ic => processClaim ic.2 (fact_check_responses ic.1))
    synthesize_final_report verified_breakdown initial_context synth_call
  match body with
  | .ok r => .ok r
  | .error e => .error ⟨500, "Fact-checking engine error: " ++ excStr e⟩

/-- Outcome of the HTTP fetch inside `process_url_input`. -/
inductive FetchOutcome where
  | timeout
  | connectionError
  | httpError (status : ℕ)
  | requestError (msg : String)
  | otherError (msg : String)
  | ok (pageText : String)

/-- `process_url_input` (lines 374-467) with the network fetch and HTML
scraping abstracted: on success `pageText` is the text scraped from the page
before whitespace normalization and word-budget truncation; each failure
class maps to the `HTTPException` its handler raises (lines 458-467). -/
def process_url_input (url : String) (fetch : FetchOutcome) :
    Except HttpExc (String × String) :=
  match fetch with
  | .ok pageText =>
    let words := strSplitWs pageText
    let cleaned_text :=
      if words.length > 3000 then joinSep " " (words.take 3000) ++ "..."
      else joinSep " " words
    .ok (cleaned_text, "Content extracted from: " ++ url)
  | .timeout => .error ⟨400, "Request timeout while fetching URL: " ++ url⟩
  | .connectionError => .error ⟨400, "Connection error while fetching URL: " ++ url⟩
  | .httpError st => .error ⟨400, "HTTP error " ++ natStr st ++ " while fetching URL: " ++ url⟩
  | .requestError msg => .error ⟨400, "Failed to fetch URL: " ++ msg⟩
  | .otherError msg => .error ⟨500, "Error processing URL: " ++ msg⟩

/-- Span matched by `re.search(r'\x7b.*\x7d', s, re.DOTALL)` (line 497): from
the first opening brace through the last closing brace after it. -/
def jsonSpan (s : String) : Option String :=
  let cs := s.data
  match cs.findIdx? (· = '{') with
  | some i =>
    let tail := cs.drop i
    (match tail.reverse.findIdx? (· = '}') with
     | some j => some (String.mk (tail.take (tail.length - j)))
     | Option.none => Option.none)
  | Option.none => Option.none

/-- `process_image_input` (lines 469-517) with base64 decoding and the vision
call abstracted: `decode_ok` is whether `base64.b64decode` succeeded,
`vision_response` the text returned by `query_gemini_vision` (which never
raises). -/
def process_image_input (decode_ok : Bool) (vision_response : String) :
    Except HttpExc (String × String) :=
  if ¬ decode_ok then .error ⟨500, "Error processing image: invalid base64 data"⟩
  else
    match jsonSpan vision_response with
    | some sub =>
      (match pyJsonLoads sub with
       | some (.dict kvs) =>
         let description := pyDictGet kvs "description" (.str "Image analysis completed")
         let extracted_text := pyDictGet kvs "extracted_text" (.str "No text found in image")
         let factual_claims := pyDictGet kvs "factual_claims" (.str "")
         let full_text := strTrim (pyStr extracted_text ++ ". " ++ pyStr factual_claims)
         .ok (full_text, "Image description: " ++ pyStr description)
       | some _ => .error ⟨500, "Error processing image: object has no attribute get"⟩
       | Option.none => .ok (vision_response, "Image analysis completed using Gemini Vision"))
    | Option.none => .ok (vision_response, "Image analysis completed using Gemini Vision")

/-- Input type of the analyze endpoint (line 286). -/
inductive InputType where
  | text
  | url
  | image

/-- `analyze_content` (lines 325-371): the rate-limit rejection happens before
the big `try`; every exception raised inside it — including the 400-level
`HTTPException`s of the extraction stage and of the empty-text check — is
caught by `except Exception` (line 369) and re-raised with status 500. -/
def analyze_content (inputType : InputType) (data : String) (rate_limited : Bool)
    (url_fetch : FetchOutcome) (image_decode_ok : Bool) (vision_response : String)
    (claims_response : String) (fact_check_responses : ℕ → String)
    (synth_call : Except PyError String) : Except HttpExc AnalysisResponse :=
  if rate_limited then
    .error ⟨429, "Rate limit exceeded. Please wait a moment before making another request. Maximum 10 requests per minute."⟩
  else
    let body : Except HttpExc AnalysisResponse := do
      let tc ←
        match inputType with
        | .text => Except.ok (data, "Input was a raw text message.")
        | .url => process_url_input data url_fetch
        | .image => process_image_input image_decode_ok vision_response
      if tc.1 = "" then
        Except.error ⟨400, "Could not extract any text from the provided input."⟩
      else
        run_fact_checking_engine tc.1 tc.2 claims_response fact_check_responses synth_call
    match body with
    | .ok r => .ok r
    | .error e =>
      .error ⟨500, "An internal server error occurred: " ++ natStr e.status ++ ": " ++ e.detail⟩

/-- The fallback table exactly as the specification words it: rational ratios
of the verdict counts over the total, compared against the 0.8/0.6
thresholds (the spec-side reference definition for C2). -/
def specFallbackTable (supported contradicted total : ℕ) : Int × String :=
  if total = 0 then (0, "Insufficient Information")
  else if (contradicted : ℚ) / (total : ℚ) ≥ 8 / 10 then (15, "False")
  else if (contradicted : ℚ) / (total : ℚ) ≥ 6 / 10 then (35, "Mostly False")
  else if (supported : ℚ) / (total : ℚ) ≥ 8 / 10 then (85, "True")
  else if (supported : ℚ) / (total : ℚ) ≥ 6 / 10 then (72, "Mostly True")
  else (50, "Mixed")

/-- A structurally valid verification response whose verdict is the prompt's
fourth documented label, `"Mixed"`. -/
def mixedVerdictResponse : String :=
  "\x7b\"verdict\": \"Mixed\", \"confidence_score\": 0.9, \"detailed_analysis\": \"Partly accurate\"\x7d"

/-- The sleep the retry loop performs after a failed non-final attempt:
`2^attempt * 2` on a rate-limit error, a flat 1 second otherwise. -/
def retryWait (upstream : ℕ → GenOutcome) (j : ℕ) : ℕ :=
  match upstream j with
  | .ok _ => 0
  | .err rl => if rl then 2 ^ j * 2 else 1

/-- Characters that pass through a JSON string literal unescaped: anything
but a quote, a backslash, or a control character. -/
def jsonSafeChar (c : Char) : Bool :=
  !(c == '"') && !(c == '\\') && decide (32 ≤ c.toNat)

/-- The fallback template of `_create_fallback_analysis`, with the verdict,
confidence text, analysis sentence and claim snippet as parameters (the
source f-string, lines 226-236). -/
def templateStr (verdict conf analysis snip : String) : String :=
  "\x7b\n        \"verdict\": \"" ++ verdict
    ++ "\",\n        \"confidence_score\": " ++ conf
    ++ ",\n        \"detailed_analysis\": \"" ++ analysis
    ++ "\",\n        \"search_suggestions\": [\"verify " ++ snip
    ++ "\", \"fact check " ++ snip
    ++ "\"],\n        \"key_evidence_points\": [\"Analysis limited due to API constraints\"],"
    ++ "\n        \"credibility_assessment\": \"Limited assessment available\","
    ++ "\n        \"context_factors\": \"API rate limiting prevented full analysis\"\n    \x7d"

/-- The mapping the fallback text is meant to denote: what `json.loads`
returns on it when the snippet does not break the string literals. -/
def fallbackRecord (verdict : String) (conf : ℚ) (analysis snip : String) : PyVal :=
  .dict [("verdict", .str verdict),
         ("confidence_score", .float conf),
         ("detailed_analysis", .str analysis),
         ("search_suggestions", .list [.str ("verify " ++ snip), .str ("fact check " ++ snip)]),
         ("key_evidence_points", .list [.str "Analysis limited due to API constraints"]),
         ("credibility_assessment", .str "Limited assessment available"),
         ("context_factors", .str "API rate limiting prevented full analysis")]

set_option maxRecDepth 16000

/-! ### Bridging lemmas between float-ratio readings and integer counts -/

/-- The source threshold test `count / total >= 0.8` (floats, here read as
exact rationals) agrees with the cross-multiplied integer test. -/
theorem ratio_ge_810_iff (c t : ℕ) (ht : 0 < t) :
    ((c : ℚ) / (t : ℚ) ≥ 8 / 10) ↔ 10 * c ≥ 8 * t := by
  rw [ge_iff_le, div_le_div_iff₀ (by norm_num) (by exact_mod_cast ht)]
  constructor
  · intro h
    have h2 : 8 * t ≤ c * 10 := by exact_mod_cast h
    omega
  · intro h
    have h2 : (8 * t : ℕ) ≤ c * 10 := by omega
    exact_mod_cast h2

/-- The source threshold test `count / total >= 0.6` agrees with the
cross-multiplied integer test. -/
theorem ratio_ge_610_iff (c t : ℕ) (ht : 0 < t) :
    ((c : ℚ) / (t : ℚ) ≥ 6 / 10) ↔ 10 * c ≥ 6 * t := by
  rw [ge_iff_le, div_le_div_iff₀ (by norm_num) (by exact_mod_cast ht)]
  constructor
  · intro h
    have h2 : 6 * t ≤ c * 10 := by exact_mod_cast h
    omega
  · intro h
    have h2 : (6 * t : ℕ) ≤ c * 10 := by omega
    exact_mod_cast h2

/-- The emergency fallback's comparison of the two ratios over the common
positive denominator is exactly the comparison of the counts. -/
theorem ratio_gt_iff_count_gt (s c t : ℕ) (ht : 0 < t) :
    ((s : ℚ) / (t : ℚ) < (c : ℚ) / (t : ℚ)) ↔ s < c := by
  rw [div_lt_div_iff_of_pos_right (by exact_mod_cast ht)]
  exact_mod_cast Iff.rfl

/-- A supported and a contradicted count never jointly exceed the breakdown
length. -/
theorem verdictCount_add_le (bd : List ClaimAnalysis) :
    verdictCount bd "Supported" + verdictCount bd "Contradicted" ≤ bd.length := by
  induction bd with
  | nil => simp [verdictCount]
  | cons a l ih =>
    simp only [verdictCount, List.filter, List.length_cons] at *
    by_cases h1 : a.verdict = "Supported" <;> by_cases h2 : a.verdict = "Contradicted" <;>
      simp [h1, h2] at * <;> omega

/-- The parse-failure fallback always scores inside [0, 100]. -/
theorem fallbackScoreVerdict_range (bd : List ClaimAnalysis) :
    0 ≤ (fallbackScoreVerdict bd).1 ∧ (fallbackScoreVerdict bd).1 ≤ 100 := by
  unfold fallbackScoreVerdict
  dsimp only
  split_ifs <;> exact ⟨by norm_num, by norm_num⟩

/-- The emergency fallback always scores inside [0, 100]. -/
theorem emergencyFallback_range (bd : List ClaimAnalysis) :
    0 ≤ (emergencyFallback bd).1 ∧ (emergencyFallback bd).1 ≤ 100 := by
  unfold emergencyFallback
  dsimp only
  split_ifs <;> exact ⟨by norm_num, by norm_num⟩

/-- A raised generation call makes the attempt fail with the same
exception. -/
theorem synthAttempt_error (bd : List ClaimAnalysis) (e : PyError) :
    synthAttempt bd (.error e) = .error e := rfl

/-- A report synthesized from a raised generation call is exactly the
emergency-fallback report. -/
theorem synthesize_final_report_error (bd : List ClaimAnalysis) (ctx : String)
    (e : PyError) :
    synthesize_final_report bd ctx (.error e) =
      .ok ⟨(emergencyFallback bd).1, (emergencyFallback bd).2.1,
           (emergencyFallback bd).2.2, bd, some ctx⟩ := rfl

/-- Anatomy of a successful synthesis: the breakdown is passed through
unchanged, and the score is the resolved attempt's. -/
theorem synthesize_ok_shape (bd : List ClaimAnalysis) (ctx : String)
    (call : Except PyError String) (r : AnalysisResponse)
    (h : synthesize_final_report bd ctx call = .ok r) :
    r.breakdown = bd ∧
    r.score = (match synthAttempt bd call with
      | .ok x => x.1
      | .error _ => (emergencyFallback bd).1) := by
  unfold synthesize_final_report at h
  simp only [Bind.bind, Except.bind] at h
  cases hA : synthAttempt bd call with
  | ok x =>
    simp only [hA] at h ⊢
    split at h
    next => exact absurd h (by simp)
    next v heq =>
      split at h
      next => exact absurd h (by simp)
      next v2 heq2 =>
        simp only [pure, Except.pure, Except.ok.injEq] at h
        rw [← h]
        exact ⟨rfl, rfl⟩
  | error e =>
    simp only [hA] at h ⊢
    split at h
    next => exact absurd h (by simp)
    next v heq =>
      split at h
      next => exact absurd h (by simp)
      next v2 heq2 =>
        simp only [pure, Except.pure, Except.ok.injEq] at h
        rw [← h]
        exact ⟨rfl, rfl⟩

/-! ### C2 -/

/-- C2: when the JSON parse of the synthesis response fails, the fallback
score and overall verdict are the exact pure function of the breakdown's
verdict counts given by the spec's threshold table (stated with exact
rational ratios); in particular 5 Contradicted / 0 Supported yields
score 15 and verdict "False".  Determinism given the counts is immediate:
the result is a function of the counts alone. -/
theorem fallback_table_is_count_function :
    (∀ breakdown : List ClaimAnalysis,
      fallbackScoreVerdict breakdown =
        specFallbackTable (verdictCount breakdown "Supported")
          (verdictCount breakdown "Contradicted") breakdown.length) ∧
    fallbackScoreVerdict [⟨"c1", "Contradicted", "e1"⟩, ⟨"c2", "Contradicted", "e2"⟩,
        ⟨"c3", "Contradicted", "e3"⟩, ⟨"c4", "Contradicted", "e4"⟩,
        ⟨"c5", "Contradicted", "e5"⟩] = (15, "False") := by
  constructor
  · intro bd
    unfold fallbackScoreVerdict specFallbackTable
    dsimp only
    by_cases ht : bd.length = 0
    · simp [ht]
    · have htp : 0 < bd.length := Nat.pos_of_ne_zero ht
      rw [if_neg ht, if_neg ht]
      by_cases h1 : 10 * verdictCount bd "Contradicted" ≥ 8 * bd.length
      · rw [if_pos h1, if_pos ((ratio_ge_810_iff _ _ htp).mpr h1)]
      · rw [if_neg h1, if_neg (fun hq => h1 ((ratio_ge_810_iff _ _ htp).mp hq))]
        by_cases h2 : 10 * verdictCount bd "Contradicted" ≥ 6 * bd.length
        · rw [if_pos h2, if_pos ((ratio_ge_610_iff _ _ htp).mpr h2)]
        · rw [if_neg h2, if_neg (fun hq => h2 ((ratio_ge_610_iff _ _ htp).mp hq))]
          by_cases h3 : 10 * verdictCount bd "Supported" ≥ 8 * bd.length
          · rw [if_pos h3, if_pos ((ratio_ge_810_iff _ _ htp).mpr h3)]
          · rw [if_neg h3, if_neg (fun hq => h3 ((ratio_ge_810_iff _ _ htp).mp hq))]
            by_cases h4 : 10 * verdictCount bd "Supported" ≥ 6 * bd.length
            · rw [if_pos h4, if_pos ((ratio_ge_610_iff _ _ htp).mpr h4)]
            · rw [if_neg h4, if_neg (fun hq => h4 ((ratio_ge_610_iff _ _ htp).mp hq))]
  · decide

/-! ### C6 -/

/-- C6 counterexample: on the breakdown [Supported, Supported, Supported,
Contradicted] the parse-failure fallback does not return verdict "Mixed"
with score 50. -/
theorem fallback_sssc_not_mixed :
    fallbackScoreVerdict [⟨"c1", "Supported", "e1"⟩, ⟨"c2", "Supported", "e2"⟩,
      ⟨"c3", "Supported", "e3"⟩, ⟨"c4", "Contradicted", "e4"⟩] ≠ ((50 : Int), "Mixed") := by
  decide

/-- C6 amended: on [Supported, Supported, Supported, Contradicted] the
supported ratio 0.75 crosses the 0.6 threshold (but not 0.8), so the
parse-failure fallback returns score 72 and verdict "Mostly True". -/
theorem fallback_sssc_mostly_true :
    fallbackScoreVerdict [⟨"c1", "Supported", "e1"⟩, ⟨"c2", "Supported", "e2"⟩,
      ⟨"c3", "Supported", "e3"⟩, ⟨"c4", "Contradicted", "e4"⟩] = (72, "Mostly True") := by
  decide

/-! ### C5 -/

/-- C5 counterexample: with a raised synthesis call and a breakdown of five
Contradicted claims (contradictedRatio 1.0 ≥ 0.8), the report carries score
30 and verdict "Mostly False" — not the parse-failure table's 15/"False". -/
theorem synth_exception_five_contradicted :
    (synthesize_final_report [⟨"c1", "Contradicted", "e1"⟩, ⟨"c2", "Contradicted", "e2"⟩,
        ⟨"c3", "Contradicted", "e3"⟩, ⟨"c4", "Contradicted", "e4"⟩,
        ⟨"c5", "Contradicted", "e5"⟩] "ctx" (.error (.typeError "boom"))).toOption.map
        (fun r => (r.score, r.overallVerdict)) = some ((30 : Int), "Mostly False")
    ∧ (synthesize_final_report [⟨"c1", "Contradicted", "e1"⟩, ⟨"c2", "Contradicted", "e2"⟩,
        ⟨"c3", "Contradicted", "e3"⟩, ⟨"c4", "Contradicted", "e4"⟩,
        ⟨"c5", "Contradicted", "e5"⟩] "ctx" (.error (.typeError "boom"))).toOption.map
        (fun r => (r.score, r.overallVerdict)) ≠ some ((15 : Int), "False") := by
  constructor
  · rfl
  · decide

/-- C5 amended: when the synthesis generation call raises, the emergency
fallback applies its count-comparison rule (contradicted > supported → 30 /
"Mostly False"), which is not the parse-failure table; hence every non-empty
breakdown with contradictedRatio ≥ 0.8 yields score 30 and verdict
"Mostly False" (not 15/"False"). -/
theorem synth_exception_mostly_false (breakdown : List ClaimAnalysis)
    (ctx : String) (e : PyError) (h0 : breakdown ≠ [])
    (h : (verdictCount breakdown "Contradicted" : ℚ) / (breakdown.length : ℚ) ≥ 8 / 10) :
    (synthesize_final_report breakdown ctx (Except.error e)).toOption.map
      (fun r => (r.score, r.overallVerdict)) = some ((30 : Int), "Mostly False") := by
  have htp : 0 < breakdown.length := List.length_pos.mpr h0
  have hc : 10 * verdictCount breakdown "Contradicted" ≥ 8 * breakdown.length :=
    (ratio_ge_810_iff _ _ htp).mp h
  have hsc := verdictCount_add_le breakdown
  have hgt : verdictCount breakdown "Contradicted" > verdictCount breakdown "Supported" := by
    omega
  rw [synthesize_final_report_error]
  have hED : (emergencyFallback breakdown).1 = 30 ∧
      (emergencyFallback breakdown).2.1 = "Mostly False" := by
    unfold emergencyFallback
    dsimp only
    rw [if_neg (Nat.pos_iff_ne_zero.mp htp), if_pos hgt]
    exact ⟨rfl, rfl⟩
  show some (((emergencyFallback breakdown).1, (emergencyFallback breakdown).2.1) : Int × String)
    = some ((30 : Int), "Mostly False")
  rw [hED.1, hED.2]

/-- C5 amended, witness at five Contradicted claims. -/
theorem synth_exception_mostly_false_witness :
    (synthesize_final_report [⟨"c1", "Contradicted", "e1"⟩, ⟨"c2", "Contradicted", "e2"⟩,
        ⟨"c3", "Contradicted", "e3"⟩, ⟨"c4", "Contradicted", "e4"⟩,
        ⟨"c5", "Contradicted", "e5"⟩] "c" (Except.error (.valueError "x"))).toOption.map
      (fun r => (r.score, r.overallVerdict)) = some ((30 : Int), "Mostly False") := by
  apply synth_exception_mostly_false
  · intro hnil
    cases hnil
  · have h1 : verdictCount [⟨"c1", "Contradicted", "e1"⟩, ⟨"c2", "Contradicted", "e2"⟩,
        ⟨"c3", "Contradicted", "e3"⟩, ⟨"c4", "Contradicted", "e4"⟩,
        ⟨"c5", "Contradicted", "e5"⟩] "Contradicted" = 5 := rfl
    rw [h1]
    norm_num

/-! ### C1 -/

/-- C1 counterexample: a parsed upstream record carrying
`"credibility_score": 150` yields a report whose score is 150, outside
[0, 100] — the primary path never clamps. -/
theorem synth_score_150 :
    (synthesize_final_report [] "ctx"
        (.ok "\x7b\"credibility_score\": 150\x7d")).toOption.map AnalysisResponse.score
      = some 150 ∧ ¬ ((150 : Int) ≤ 100) := ⟨rfl, by decide⟩

/-- A successful primary synthesis carries exactly the score
`int(report_data.get("credibility_score", 50))`. -/
theorem synthPrimary_score (kvs : List (String × PyVal)) (x : Int × PyVal × PyVal)
    (h : synthPrimary kvs = .ok x) :
    pyInt (pyDictGet kvs "credibility_score" (.int 50)) = .ok x.1 := by
  unfold synthPrimary at h
  simp only [Bind.bind, Except.bind, pure, Except.pure] at h
  split at h
  next e heq => exact absurd h (by simp)
  next sc heq =>
    rw [heq]
    clear heq
    repeat' split at h
    all_goals
      first
      | (simp only [Except.ok.injEq] at h; rw [← h])
      | exact absurd h (by simp)

/-- C1 amended: every report the synthesizer returns has its score inside
[0, 100] except on the primary path, where the score is exactly
`int(report_data.get("credibility_score", 50))` from the parsed upstream
record, unclamped (so it is in range only when that upstream value is). -/
theorem synth_score_range (breakdown : List ClaimAnalysis) (ctx : String)
    (call : Except PyError String) (r : AnalysisResponse)
    (h : synthesize_final_report breakdown ctx call = .ok r) :
    (0 ≤ r.score ∧ r.score ≤ 100) ∨
    (∃ response kvs, call = .ok response ∧ pyJsonLoads response = some (.dict kvs) ∧
      pyInt (pyDictGet kvs "credibility_score" (.int 50)) = .ok r.score) := by
  have hshape := (synthesize_ok_shape breakdown ctx call r h).2
  cases hA : synthAttempt breakdown call with
  | error e =>
    rw [hA] at hshape
    dsimp only at hshape
    left
    rw [hshape]
    exact emergencyFallback_range breakdown
  | ok x =>
    rw [hA] at hshape
    dsimp only at hshape
    cases call with
    | error e => exact absurd hA (by rw [synthAttempt_error]; simp)
    | ok response =>
      unfold synthAttempt at hA
      simp only [Bind.bind, Except.bind] at hA
      cases hP : pyJsonLoads response with
      | some v =>
        cases v with
        | dict kvs =>
          simp only [hP] at hA
          right
          refine ⟨response, kvs, rfl, hP, ?_⟩
          rw [hshape]
          exact synthPrimary_score kvs x hA
        | str s => simp only [hP] at hA; exact absurd hA (by simp)
        | int n => simp only [hP] at hA; exact absurd hA (by simp)
        | float q => simp only [hP] at hA; exact absurd hA (by simp)
        | bool b => simp only [hP] at hA; exact absurd hA (by simp)
        | null => simp only [hP] at hA; exact absurd hA (by simp)
        | list xs => simp only [hP] at hA; exact absurd hA (by simp)
      | none =>
        simp only [hP] at hA
        split at hA
        next => exact absurd hA (by simp)
        next summ heq2 =>
          simp only [pure, Except.pure, Except.ok.injEq] at hA
          left
          rw [hshape, ← hA]
          exact fallbackScoreVerdict_range breakdown

/-- C1 amended, witness: an unparseable synthesis response over an empty
breakdown scores 0, inside [0, 100]. -/
theorem synth_score_range_witness :
    ((0 : Int) ≤ 0 ∧ (0 : Int) ≤ 100) ∨
    (∃ response kvs, (Except.ok "junk" : Except PyError String) = .ok response ∧
      pyJsonLoads response = some (.dict kvs) ∧
      pyInt (pyDictGet kvs "credibility_score" (.int 50)) = .ok 0) :=
  synth_score_range [] "c" (.ok "junk")
    ⟨0, "Insufficient Information",
     "No factual claims could be identified in the provided content.", [], some "c"⟩ rfl

/-! ### C7 -/

/-- C7 (code bug): the fact-check prompt documents the verdict label "Mixed",
and the response parses with exactly that label, but `ClaimAnalysis.verdict`'s
`Literal` omits "Mixed", so pydantic validation raises and the per-claim
handler replaces the verdict with "InsufficientInfo" and an error
explanation — the parsed label is not mapped through. -/
theorem mixed_verdict_not_mapped :
    pyJsonLoads mixedVerdictResponse =
      some (.dict [("verdict", .str "Mixed"), ("confidence_score", .float (mkRat 9 10)),
        ("detailed_analysis", .str "Partly accurate")])
    ∧ "Mixed" ∉ allowedClaimVerdicts
    ∧ (processClaim "The earth is round" mixedVerdictResponse).verdict = "InsufficientInfo"
    ∧ strStartsWith (processClaim "The earth is round" mixedVerdictResponse).explanation
        "Error during analysis: " = true := by
  refine ⟨rfl, by decide, by decide, by decide⟩

/-! ### C9 -/

/-- C9 (code bug): the extraction stage deliberately raises client-facing
`HTTPException(400)`s, but they are raised inside `analyze_content`'s big
`try`, whose `except Exception` re-raises everything as status 500 — so both
an empty-text input and a URL fetch timeout surface as 500, not 400. -/
theorem extraction_failure_surfaces_500 :
    analyze_content .text "" false (.ok "") true "" "" (fun _ => "") (.ok "")
      = .error ⟨500, "An internal server error occurred: 400: Could not extract any text from the provided input."⟩
    ∧ analyze_content .url "http://x.test" false .timeout true "" "" (fun _ => "") (.ok "")
      = .error ⟨500, "An internal server error occurred: 400: Request timeout while fetching URL: http://x.test"⟩ :=
  ⟨rfl, rfl⟩
/-! ### C3 -/

/-- The retry loop makes at most `remaining` attempts. -/
theorem geminiRetryLoop_attempts_le (up : ℕ → GenOutcome) (p : String) (r a : ℕ) :
    (geminiRetryLoop up p a r).2.2 ≤ r := by
  induction r generalizing a with
  | zero => simp [geminiRetryLoop]
  | succ n ih =>
    unfold geminiRetryLoop
    cases up a with
    | ok t => simp
    | err rl =>
      dsimp only
      by_cases hn : n = 0
      · simp [hn]
      · rw [if_neg hn]
        have hle := ih (a + 1)
        rcases hloop : geminiRetryLoop up p (a + 1) n with ⟨t2, ws2, m2⟩
        rw [hloop] at hle
        dsimp only at hle ⊢
        omega

/-- If the first `k` attempts fail and attempt `k` succeeds, the loop returns
the success text after `k + 1` attempts, having slept the schedule for the
`k` failures. -/
theorem geminiRetryLoop_success (up : ℕ → GenOutcome) (p : String) (r a k : ℕ)
    (t : String) (hk : k < r) (herr : ∀ j, j < k → ∀ s, up (a + j) ≠ .ok s)
    (hok : up (a + k) = .ok t) :
    geminiRetryLoop up p a r =
      (t, (List.range k).map (fun j => retryWait up (a + j)), k + 1) := by
  induction r generalizing a k with
  | zero => omega
  | succ n ih =>
    unfold geminiRetryLoop
    cases k with
    | zero =>
      rw [Nat.add_zero] at hok
      simp [hok]
    | succ kp =>
      have h0 : ∀ s, up a ≠ .ok s := by
        have h00 := herr 0 (Nat.succ_pos kp)
        simpa using h00
      cases hu : up a with
      | ok s => exact absurd hu (h0 s)
      | err rl =>
        dsimp only
        have hn : n ≠ 0 := by omega
        rw [if_neg hn]
        have hrec := ih (a + 1) kp (by omega)
          (fun j hj s hs => herr (j + 1) (by omega) s
            (by rwa [show a + (j + 1) = a + 1 + j by omega]))
          (by rwa [show a + 1 + kp = a + (kp + 1) by omega])
        rw [hrec]
        dsimp only
        rw [List.range_succ_eq_map, List.map_cons, List.map_map]
        refine congrArg (fun l => (t, l, kp + 1 + 1)) ?_
        rw [show retryWait up (a + 0) = (if rl then 2 ^ a * 2 else 1) by
          simp [retryWait, hu]]
        refine congrArg (fun l => (if rl then 2 ^ a * 2 else 1) :: l) ?_
        refine List.map_congr_left (fun j _ => ?_)
        simp only [Function.comp]
        congr 1
        omega

/-- If every allowed attempt fails, the loop returns the fallback text after
exactly `r` attempts, having slept after every attempt but the last. -/
theorem geminiRetryLoop_allfail (up : ℕ → GenOutcome) (p : String) (r a : ℕ)
    (h : ∀ j, j < r → ∀ s, up (a + j) ≠ .ok s) :
    geminiRetryLoop up p a r =
      (_create_fallback_analysis p,
       (List.range (r - 1)).map (fun j => retryWait up (a + j)), r) := by
  induction r generalizing a with
  | zero => simp [geminiRetryLoop]
  | succ n ih =>
    unfold geminiRetryLoop
    have h0 : ∀ s, up a ≠ .ok s := by
      have h00 := h 0 (Nat.succ_pos n)
      simpa using h00
    cases hu : up a with
    | ok s => exact absurd hu (h0 s)
    | err rl =>
      dsimp only
      by_cases hn : n = 0
      · subst hn
        simp
      · rw [if_neg hn]
        have hrec := ih (a + 1)
          (fun j hj s hs => h (j + 1) (by omega) s
            (by rwa [show a + (j + 1) = a + 1 + j by omega]))
        rw [hrec]
        dsimp only
        obtain ⟨m, rfl⟩ : ∃ m, n = m + 1 := ⟨n - 1, by omega⟩
        rw [show m + 1 + 1 - 1 = m + 1 by omega, show m + 1 - 1 = m by omega]
        rw [List.range_succ_eq_map, List.map_cons, List.map_map]
        refine congrArg (fun l => (_create_fallback_analysis p, l, m + 1 + 1)) ?_
        rw [show retryWait up (a + 0) = (if rl then 2 ^ a * 2 else 1) by
          simp [retryWait, hu]]
        refine congrArg (fun l => (if rl then 2 ^ a * 2 else 1) :: l) ?_
        refine List.map_congr_left (fun j _ => ?_)
        simp only [Function.comp]
        congr 1
        omega

/-- C3: `query_gemini_text` never raises — it is a total function returning
text — and (a) makes at most `max_retries` attempts; (b) if the attempts
before `k < max_retries` all fail and attempt `k` succeeds, it returns the
upstream text immediately after `k + 1` attempts, having slept per failure
`2^n * 2` seconds on a rate-limit error and 1 second otherwise; (c) if every
attempt fails it returns the Fallback Generator text after exactly
`max_retries` attempts, sleeping only after the non-final failures. -/
theorem query_gemini_text_spec (upstream : ℕ → GenOutcome) (prompt : String)
    (max_retries : ℕ) :
    ((query_gemini_text upstream prompt max_retries).2.2 ≤ max_retries) ∧
    (∀ k t, k < max_retries → (∀ j, j < k → ∀ s, upstream j ≠ .ok s) →
      upstream k = .ok t →
      query_gemini_text upstream prompt max_retries =
        (t, (List.range k).map (retryWait upstream), k + 1)) ∧
    ((∀ j, j < max_retries → ∀ s, upstream j ≠ .ok s) →
      query_gemini_text upstream prompt max_retries =
        (_create_fallback_analysis prompt,
         (List.range (max_retries - 1)).map (retryWait upstream), max_retries)) := by
  refine ⟨geminiRetryLoop_attempts_le upstream prompt max_retries 0,
    fun k t hk he ho => ?_, fun h => ?_⟩
  · have hs := geminiRetryLoop_success upstream prompt max_retries 0 k t hk
      (by simpa using he) (by simpa using ho)
    simpa [query_gemini_text] using hs
  · have hs := geminiRetryLoop_allfail upstream prompt max_retries 0
      (by simpa using h)
    simpa [query_gemini_text] using hs

/-- C3 witness: three rate-limited attempts sleep 2 then 4 seconds, then the
third (last) attempt returns the fallback text with no further wait. -/
theorem query_gemini_text_spec_witness :
    query_gemini_text (fun _ => .err true) "p" 3 =
      (_create_fallback_analysis "p", [2, 4], 3) := by
  have h := (query_gemini_text_spec (fun _ => .err true) "p" 3).2.2
    (fun j hj s hs => GenOutcome.noConfusion hs)
  rw [h]
  rfl

/-! ### C4 -/

/-- pydantic keeps the claim field as constructed. -/
theorem mkClaimAnalysis_claim (c : String) (v : PyVal) (e : String)
    (ca : ClaimAnalysis) (h : mkClaimAnalysis c v e = .ok ca) : ca.claim = c := by
  unfold mkClaimAnalysis at h
  split at h
  next s =>
    split at h
    · simp only [Except.ok.injEq] at h
      rw [← h]
    · exact absurd h (by simp)
  next => exact absurd h (by simp)

/-- Every breakdown entry carries the claim it was built for, on the parse
path, the keyword-fallback path, and the exception path alike. -/
theorem processClaim_claim (c resp : String) : (processClaim c resp).claim = c := by
  unfold processClaim
  cases hc : processClaimCore c resp with
  | error e => rfl
  | ok ca =>
    unfold processClaimCore at hc
    simp only [Bind.bind, Except.bind, pure, Except.pure] at hc
    repeat' split at hc
    all_goals
      first
      | exact mkClaimAnalysis_claim _ _ _ _ hc
      | exact absurd hc (by simp)

/-- Anatomy of a successful engine run: the extraction succeeded and the
breakdown is the per-claim map over the extracted claims in order. -/
theorem run_engine_ok (text ctx er : String) (fr : ℕ → String)
    (sc : Except PyError String) (r : AnalysisResponse)
    (h : run_fact_checking_engine text ctx er fr sc = .ok r) :
    ∃ claims, extractClaims text er = .ok claims ∧
      r.breakdown = claims.enum.map (fun ic => processClaim ic.2 (fr ic.1)) := by
  unfold run_fact_checking_engine at h
  simp only [Bind.bind, Except.bind] at h
  cases hE : extractClaims text er with
  | error e => simp [hE] at h
  | ok claims =>
    simp only [hE] at h
    cases hs : synthesize_final_report
        (claims.enum.map (fun ic => processClaim ic.2 (fr ic.1))) ctx sc with
    | error e => simp [hs] at h
    | ok r2 =>
      simp only [hs, Except.ok.injEq] at h
      subst h
      exact ⟨claims, rfl, (synthesize_ok_shape _ _ _ _ hs).1⟩

/-- C4: whenever the engine returns a response, the breakdown has exactly one
entry per extracted claim, in extraction order — its length equals the number
of extracted claims and the i-th entry carries the i-th claim. -/
theorem breakdown_matches_claims (text ctx claims_response : String)
    (fact_check_responses : ℕ → String) (synth_call : Except PyError String)
    (r : AnalysisResponse)
    (h : run_fact_checking_engine text ctx claims_response fact_check_responses
        synth_call = .ok r) :
    ∃ claims, extractClaims text claims_response = .ok claims ∧
      r.breakdown.length = claims.length ∧
      r.breakdown.map (fun ca => ca.claim) = claims := by
  obtain ⟨claims, hE, hbd⟩ :=
    run_engine_ok text ctx claims_response fact_check_responses synth_call r h
  refine ⟨claims, hE, ?_, ?_⟩
  · rw [hbd]
    simp
  · rw [hbd, List.map_map]
    have hfun : ((fun ca : ClaimAnalysis => ca.claim) ∘
        (fun ic : ℕ × String => processClaim ic.2 (fact_check_responses ic.1)))
        = fun ic : ℕ × String => ic.2 := by
      funext ic
      exact processClaim_claim _ _
    rw [hfun]
    exact List.enum_map_snd claims

/-- C4 witness: one extracted claim, one breakdown entry carrying it. -/
theorem breakdown_matches_claims_witness :
    ∃ claims, extractClaims "Paris is the capital of France. The earth is flat." "junk"
        = .ok claims ∧
      (([⟨"Paris is the capital of France", "InsufficientInfo", "junk"⟩] :
          List ClaimAnalysis).length = claims.length) ∧
      ([⟨"Paris is the capital of France", "InsufficientInfo", "junk"⟩] :
          List ClaimAnalysis).map (fun ca => ca.claim) = claims :=
  breakdown_matches_claims "Paris is the capital of France. The earth is flat." "ctx"
    "junk" (fun _ => "junk") (.ok "junk")
    ⟨50, "Mixed", "Analysis of 1 claims: 0 supported, 0 contradicted, 1 inconclusive. junk...",
     [⟨"Paris is the capital of France", "InsufficientInfo", "junk"⟩], some "ctx"⟩ rfl

/-! ### C10 -/

/-- A string with nonempty character data is not the empty string. -/
theorem str_ne_empty_of_data (s : String) (h : s.data ≠ []) : s ≠ "" :=
  fun he => h (by rw [he])

/-- A nonempty string has nonempty character data. -/
theorem data_ne_nil_of_ne_empty (s : String) (h : s ≠ "") : s.data ≠ [] := by
  intro hd
  exact h (String.ext (by rw [hd]))

/-- Appending to a nonempty right part stays nonempty. -/
theorem append_ne_empty_of_right (a b : String) (hb : b ≠ "") : a ++ b ≠ "" := by
  apply str_ne_empty_of_data
  rw [String.data_append]
  intro hd
  exact data_ne_nil_of_ne_empty b hb (List.append_eq_nil.mp hd).2

/-- Appending to a nonempty left part stays nonempty. -/
theorem append_ne_empty_of_left (a b : String) (ha : a ≠ "") : a ++ b ≠ "" := by
  apply str_ne_empty_of_data
  rw [String.data_append]
  intro hd
  exact data_ne_nil_of_ne_empty a ha (List.append_eq_nil.mp hd).1

/-- The digit list of a natural number is never empty. -/
theorem natDigs_ne_nil (n : ℕ) : natDigs n ≠ [] := by
  unfold natDigs
  split_ifs with h
  · simp
  · obtain ⟨m, rfl⟩ : ∃ m, n = m + 1 := ⟨n - 1, by omega⟩
    show natDigsAux m ((m + 1) / 10) ++ [Char.ofNat (48 + (m + 1) % 10)] ≠ []
    simp

/-- `natStr` never returns the empty string. -/
theorem natStr_ne_empty (n : ℕ) : natStr n ≠ "" :=
  str_ne_empty_of_data _ (natDigs_ne_nil n)

/-- `pyIntStr` never returns the empty string. -/
theorem pyIntStr_ne_empty (n : Int) : pyIntStr n ≠ "" :=
  append_ne_empty_of_right _ _ (natStr_ne_empty n.natAbs)

/-- `pyFloatStr` never returns the empty string. -/
theorem pyFloatStr_ne_empty (q : ℚ) : pyFloatStr q ≠ "" := by
  unfold pyFloatStr
  by_cases h : q.den = 1
  · rw [if_pos h]
    exact append_ne_empty_of_right _ _ (by decide)
  · rw [if_neg h]
    refine append_ne_empty_of_right _ _ ?_
    split_ifs with h2
    · decide
    · exact str_ne_empty_of_data _ (by simpa using h2)

/-- `pyRepr` never returns the empty string. -/
theorem pyRepr_ne_empty (v : PyVal) : pyRepr v ≠ "" := by
  cases v with
  | str s => exact append_ne_empty_of_right _ _ (by decide)
  | int n => exact pyIntStr_ne_empty n
  | float q => exact pyFloatStr_ne_empty q
  | bool b => cases b <;> decide
  | null => decide
  | list xs => exact append_ne_empty_of_right _ _ (by decide)
  | dict kvs => exact append_ne_empty_of_right _ _ (by decide)

/-- `str()` of a truthy Python value is never the empty string. -/
theorem pyStr_truthy_ne_empty (v : PyVal) (h : pyTruthy v = true) : pyStr v ≠ "" := by
  cases v with
  | str s =>
    simp only [pyTruthy, Bool.not_eq_true'] at h
    exact str_ne_empty_of_data s (by simpa using h)
  | int n => exact pyIntStr_ne_empty n
  | float q => exact pyFloatStr_ne_empty q
  | bool b => cases b
              · exact absurd h (by simp [pyTruthy])
              · decide
  | null => exact absurd h (by simp [pyTruthy])
  | list xs => exact append_ne_empty_of_right _ _ (by decide)
  | dict kvs => exact append_ne_empty_of_right _ _ (by decide)

/-- Every readable part collected from a parsed mapping is nonempty. -/
theorem readableParts_ne_empty (kvs : List (String × PyVal)) :
    ∀ p ∈ readableParts kvs, p ≠ "" := by
  have haux : ∀ (keys : List String) (acc : List String), (∀ p ∈ acc, p ≠ "") →
      ∀ p ∈ keys.foldl (fun acc key =>
        match pyDictFind kvs key with
        | some v => if pyTruthy v then acc ++ [pyStr v] else acc
        | Option.none => acc) acc, p ≠ "" := by
    intro keys
    induction keys with
    | nil => intro acc h; simpa using h
    | cons k ks ih =>
      intro acc h
      rw [List.foldl_cons]
      apply ih
      cases hf : pyDictFind kvs k with
      | none => simpa [hf] using h
      | some v =>
        simp only [hf]
        split_ifs with hv
        · intro p hp
          rcases List.mem_append.mp hp with h1 | h1
          · exact h p h1
          · rw [List.mem_singleton.mp h1]
            exact pyStr_truthy_ne_empty v hv
        · exact h
  exact haux readableKeys [] (by simp)

/-- A separator-joined list of nonempty parts is nonempty when the separator
and the list are. -/
theorem joinSep_ne_empty (sep : String) (parts : List String) (hsep : sep ≠ "")
    (hne : parts ≠ []) (hall : ∀ p ∈ parts, p ≠ "") : joinSep sep parts ≠ "" := by
  match parts with
  | [] => exact absurd rfl hne
  | [p] => exact hall p (by simp)
  | p :: q :: rest =>
    show p ++ sep ++ joinSep sep (q :: rest) ≠ ""
    exact append_ne_empty_of_left _ _ (append_ne_empty_of_right _ _ hsep)

/-- `json.loads` fails on the empty string. -/
theorem pyJsonLoads_empty : pyJsonLoads "" = Option.none := rfl

/-- C10 amended: `clean_json_response` terminates and returns a non-null,
nonempty string for every input, except that it raises `TypeError` exactly
when the fence-stripped input parses as a mapping whose present-and-truthy
`key_evidence_points` value makes the `', '.join` raise (a non-iterable or an
iterable with a non-string item); for all other inputs — including mappings
with well-behaved evidence and non-mapping JSON — the result is a nonempty
string. -/
theorem clean_json_response_total (s : String) :
    (∀ out, clean_json_response s = .ok out → out ≠ "") ∧
    (∀ e, clean_json_response s = .error e →
      ∃ kvs v, pyJsonLoads (subTokWs "```" (subTokWs "```json" s)) = some (.dict kvs) ∧
        pyDictFind kvs "key_evidence_points" = some v ∧ pyTruthy v = true ∧
        ∃ e2, pyJoin ", " v = .error e2) := by
  unfold clean_json_response
  dsimp only
  have hclean : ∀ cl : List Char,
      (∀ out, (if (strTrim (String.mk cl)).data.isEmpty
          then (pure "Analysis completed." : Except PyError String)
          else pure (strTrim (String.mk cl))) = .ok out → out ≠ "") := by
    intro cl out hout
    split_ifs at hout with hc
    · simp only [pure, Except.pure, Except.ok.injEq] at hout
      rw [← hout]
      decide
    · simp only [pure, Except.pure, Except.ok.injEq] at hout
      rw [← hout]
      exact str_ne_empty_of_data _ (by simpa using hc)
  cases hP : pyJsonLoads (subTokWs "```" (subTokWs "```json" s)) with
  | none =>
    simp only [hP]
    refine ⟨fun out hout => hclean _ out hout, fun e he => ?_⟩
    split_ifs at he <;> exact Except.noConfusion he
  | some v =>
    cases v with
    | dict kvs =>
      simp only [hP]
      have htne : subTokWs "```" (subTokWs "```json" s) ≠ "" := by
        intro hteq
        rw [hteq, pyJsonLoads_empty] at hP
        exact Option.noConfusion hP
      cases hf : pyDictFind kvs "key_evidence_points" with
      | none =>
        simp only [hf, Bind.bind, Except.bind, pure, Except.pure]
        constructor
        · intro out hout
          have hall2 : ∀ p ∈ (match pyDictFind kvs "credibility_assessment" with
              | some v => if pyTruthy v then readableParts kvs ++ ["Credibility: " ++ pyStr v]
                          else readableParts kvs
              | Option.none => readableParts kvs), p ≠ "" := by
            cases hc : pyDictFind kvs "credibility_assessment" with
            | none => simpa using readableParts_ne_empty kvs
            | some cv =>
              simp only
              split_ifs with hcv
              · intro p hp
                rcases List.mem_append.mp hp with h1 | h1
                · exact readableParts_ne_empty kvs p h1
                · rw [List.mem_singleton.mp h1]
                  exact append_ne_empty_of_left _ _ (by decide)
              · exact readableParts_ne_empty kvs
          split_ifs at hout with hemp
          · simp only [Except.ok.injEq] at hout
            rw [← hout]
            exact htne
          · simp only [Except.ok.injEq] at hout
            rw [← hout]
            exact joinSep_ne_empty _ _ (by decide) (by simpa using hemp) hall2
        · intro e he
          split_ifs at he
      | some ev =>
        simp only [hf, Bind.bind, Except.bind, pure, Except.pure]
        by_cases hev : pyTruthy ev = true
        · simp only [if_pos hev]
          cases hj : pyJoin ", " ev with
          | error e2 =>
            simp only [hj]
            refine ⟨fun out hout => Except.noConfusion hout, fun e he => ?_⟩
            refine ⟨kvs, ev, rfl, hf, hev, e2, hj⟩
          | ok j =>
            simp only [hj]
            constructor
            · intro out hout
              have hall2 : ∀ p ∈ (readableParts kvs ++ ["Evidence: " ++ j]), p ≠ "" := by
                intro p hp
                rcases List.mem_append.mp hp with h1 | h1
                · exact readableParts_ne_empty kvs p h1
                · rw [List.mem_singleton.mp h1]
                  exact append_ne_empty_of_left _ _ (by decide)
              have hall3 : ∀ p ∈ (match pyDictFind kvs "credibility_assessment" with
                  | some v => if pyTruthy v
                              then (readableParts kvs ++ ["Evidence: " ++ j])
                                ++ ["Credibility: " ++ pyStr v]
                              else readableParts kvs ++ ["Evidence: " ++ j]
                  | Option.none => readableParts kvs ++ ["Evidence: " ++ j]), p ≠ "" := by
                cases hc : pyDictFind kvs "credibility_assessment" with
                | none => simpa using hall2
                | some cv =>
                  simp only
                  split_ifs with hcv
                  · intro p hp
                    rcases List.mem_append.mp hp with h1 | h1
                    · exact hall2 p h1
                    · rw [List.mem_singleton.mp h1]
                      exact append_ne_empty_of_left _ _ (by decide)
                  · exact hall2
              split_ifs at hout with hemp
              · simp only [Except.ok.injEq] at hout
                rw [← hout]
                exact htne
              · simp only [Except.ok.injEq] at hout
                rw [← hout]
                exact joinSep_ne_empty _ _ (by decide) (by simpa using hemp) hall3
            · intro e he
              split_ifs at he
        · simp only [if_neg hev]
          constructor
          · intro out hout
            have hall2 : ∀ p ∈ (match pyDictFind kvs "credibility_assessment" with
                | some v => if pyTruthy v then readableParts kvs ++ ["Credibility: " ++ pyStr v]
                            else readableParts kvs
                | Option.none => readableParts kvs), p ≠ "" := by
              cases hc : pyDictFind kvs "credibility_assessment" with
              | none => simpa using readableParts_ne_empty kvs
              | some cv =>
                simp only
                split_ifs with hcv
                · intro p hp
                  rcases List.mem_append.mp hp with h1 | h1
                  · exact readableParts_ne_empty kvs p h1
                  · rw [List.mem_singleton.mp h1]
                    exact append_ne_empty_of_left _ _ (by decide)
                · exact readableParts_ne_empty kvs
            split_ifs at hout with hemp
            · simp only [Except.ok.injEq] at hout
              rw [← hout]
              exact htne
            · simp only [Except.ok.injEq] at hout
              rw [← hout]
              exact joinSep_ne_empty _ _ (by decide) (by simpa using hemp) hall2
          · intro e he
            split_ifs at he
    | str s2 =>
      simp only [hP]
      refine ⟨fun out hout => hclean _ out hout, fun e he => ?_⟩
      split_ifs at he <;> exact Except.noConfusion he
    | int n =>
      simp only [hP]
      refine ⟨fun out hout => hclean _ out hout, fun e he => ?_⟩
      split_ifs at he <;> exact Except.noConfusion he
    | float q =>
      simp only [hP]
      refine ⟨fun out hout => hclean _ out hout, fun e he => ?_⟩
      split_ifs at he <;> exact Except.noConfusion he
    | bool b =>
      simp only [hP]
      refine ⟨fun out hout => hclean _ out hout, fun e he => ?_⟩
      split_ifs at he <;> exact Except.noConfusion he
    | null =>
      simp only [hP]
      refine ⟨fun out hout => hclean _ out hout, fun e he => ?_⟩
      split_ifs at he <;> exact Except.noConfusion he
    | list xs =>
      simp only [hP]
      refine ⟨fun out hout => hclean _ out hout, fun e he => ?_⟩
      split_ifs at he <;> exact Except.noConfusion he

/-- C10 amended, witness: a plain word survives the sanitizer unchanged and
nonempty. -/
theorem clean_json_response_total_witness : ("hello" : String) ≠ "" :=
  (clean_json_response_total "hello").1 "hello" rfl

/-- C10 counterexample: a mapping whose evidence list holds a non-string item
makes `clean_json_response` raise (`TypeError` from `', '.join`), so the
function does not return a string on every input. -/
theorem clean_json_response_raises :
    ∃ e, clean_json_response "\x7b\"key_evidence_points\": [1]\x7d" = .error e :=
  ⟨_, rfl⟩

/-! ### C8 -/

/-- Safety is preserved by list append. -/
theorem jsonSafeChar_append (u v : List Char)
    (hu : ∀ c ∈ u, jsonSafeChar c = true) (hv : ∀ c ∈ v, jsonSafeChar c = true) :
    ∀ c ∈ u ++ v, jsonSafeChar c = true := by
  intro c hc
  rcases List.mem_append.mp hc with h | h
  · exact hu c h
  · exact hv c h

/-- Scanning a string-literal body made of safe characters consumes exactly
through the closing quote. -/
theorem scanStr_safe (u : List Char) (hu : ∀ c ∈ u, jsonSafeChar c = true)
    (rest : List Char) : scanStr (u ++ '"' :: rest) = some (u, rest) := by
  induction u with
  | nil =>
    show scanStr ('"' :: rest) = some ([], rest)
    unfold scanStr
    rw [if_pos rfl]
  | cons c cs ih =>
    have hc := hu c (by simp)
    have hcs : ∀ d ∈ cs, jsonSafeChar d = true := fun d hd => hu d (by simp [hd])
    simp only [jsonSafeChar, Bool.and_eq_true, Bool.not_eq_true', beq_eq_false_iff_ne,
      ne_eq, decide_eq_true_eq] at hc
    obtain ⟨⟨hq, hb⟩, hn⟩ := hc
    show scanStr (c :: (cs ++ '"' :: rest)) = some (c :: cs, rest)
    unfold scanStr
    rw [if_neg hq, if_neg hb, if_neg (by omega), ih hcs]
    rfl

/-- Raising the fuel never changes a successful parse. -/
theorem parseJson_mono (f : ℕ) : ∀ g, f ≤ g →
    (∀ s r, parseJsonVal f s = some r → parseJsonVal g s = some r) ∧
    (∀ s acc r, parseJsonMembers f s acc = some r → parseJsonMembers g s acc = some r) ∧
    (∀ s acc r, parseJsonElems f s acc = some r → parseJsonElems g s acc = some r) := by
  induction f with
  | zero =>
    intro g hg
    refine ⟨fun s r h => ?_, fun s acc r h => ?_, fun s acc r h => ?_⟩ <;>
      exact absurd h (by simp [parseJsonVal, parseJsonMembers, parseJsonElems])
  | succ n ih =>
    intro g hg
    obtain ⟨m, rfl⟩ : ∃ m, g = m + 1 := ⟨g - 1, by omega⟩
    have hm : n ≤ m := by omega
    obtain ⟨ihV, ihM, ihE⟩ := ih m hm
    refine ⟨fun s r h => ?_, fun s acc r h => ?_, fun s acc r h => ?_⟩
    · unfold parseJsonVal at h ⊢
      split at h
      next heq => exact absurd h (by simp)
      next c rest heq =>
        split_ifs at h ⊢ with h1 h2 h3 h4 h5 h6
        · split at h
          next c2 r2 heq2 =>
            split_ifs at h ⊢ with hb1
            · exact h
            · exact ihM _ _ _ h
          next heq2 => exact ihM _ _ _ h
        · split at h
          next c2 r2 heq2 =>
            split_ifs at h ⊢ with hb1
            · exact h
            · exact ihE _ _ _ h
          next heq2 => exact ihE _ _ _ h
        · exact h
        · exact h
        · exact h
        · exact h
        · exact h
    · unfold parseJsonMembers at h ⊢
      split at h
      next c rest heq =>
        split_ifs at h ⊢ with h1
        · split at h
          next k r1 heq2 =>
            split at h
            next c2 r2 heq3 =>
              split_ifs at h ⊢ with hb1
              · cases hv : parseJsonVal n r2 with
                | none => rw [hv] at h; exact absurd h (by simp)
                | some vr =>
                  rw [hv] at h
                  rw [ihV _ _ hv]
                  obtain ⟨v, r3⟩ := vr
                  dsimp only at h ⊢
                  split at h
                  next c3 r4 heq4 =>
                    split_ifs at h ⊢ with hc1 hc2
                    · exact ihM _ _ _ h
                    · exact h
                  next heq4 => exact absurd h (by simp)
            next heq3 => exact absurd h (by simp)
          next heq2 => exact absurd h (by simp)
      next heq => exact absurd h (by simp)
    · unfold parseJsonElems at h ⊢
      cases hv : parseJsonVal n s with
      | none => rw [hv] at h; exact absurd h (by simp)
      | some vr =>
        rw [hv] at h
        rw [ihV _ _ hv]
        obtain ⟨v, r1⟩ := vr
        dsimp only at h ⊢
        split at h
        next c2 r2 heq =>
          split_ifs at h ⊢ with hc1 hc2
          · exact ihE _ _ _ h
          · exact h
        next heq => exact absurd h (by simp)
/-- `skipWs` is the identity on input whose head is not whitespace. -/
theorem skipWs_not_ws (c : Char) (l : List Char) (h : isJsonWs c = false) :
    skipWs (c :: l) = c :: l := by
  simp [skipWs, h]

/-- Reading a string-literal value whose body consists of safe characters. -/
theorem parseJsonVal_strLit (f : ℕ) (w : List Char) {s rest : List Char}
    (hs : skipWs s = '"' :: (w ++ ('"' :: rest)))
    (hw : ∀ c ∈ w, jsonSafeChar c = true) :
    parseJsonVal (f+1) s = some (.str (String.mk w), rest) := by
  unfold parseJsonVal
  rw [hs]
  show (scanStr (w ++ ('"' :: rest))).map (fun p => (PyVal.str (String.mk p.1), p.2))
      = some (PyVal.str (String.mk w), rest)
  rw [scanStr_safe w hw rest]
  rfl

/-- Entering a JSON object whose first member starts with a quote. -/
theorem parseJsonVal_obj (f : ℕ) {s r r2 : List Char}
    (hs : skipWs s = '{' :: r) (hr : skipWs r = '"' :: r2) :
    parseJsonVal (f+1) s = parseJsonMembers f ('"' :: r2) [] := by
  unfold parseJsonVal
  rw [hs]
  dsimp only
  rw [if_pos rfl, hr]
  dsimp only
  rw [if_neg (show ¬('"' = '\x7d') from by decide)]

/-- One object member (safe concrete key, colon, value) followed by a comma. -/
theorem parseJsonMembers_step_comma (f : ℕ) (k : List Char) {s r2 r3 r4 : List Char}
    {v : PyVal} {acc : List (String × PyVal)}
    (hs : skipWs s = '"' :: (k ++ ('"' :: (':' :: r2))))
    (hk : ∀ c ∈ k, jsonSafeChar c = true)
    (hv : parseJsonVal (f+1) r2 = some (v, r3))
    (hr : skipWs r3 = ',' :: r4) :
    parseJsonMembers (f+1+1) s acc = parseJsonMembers (f+1) r4 (acc ++ [(String.mk k, v)]) := by
  conv_lhs => unfold parseJsonMembers
  rw [hs]
  dsimp only
  rw [if_pos rfl, scanStr_safe k hk (':' :: r2)]
  dsimp only
  rw [skipWs_not_ws ':' r2 rfl]
  dsimp only
  rw [if_pos rfl, hv]
  dsimp only
  rw [hr]
  dsimp only
  rw [if_pos rfl]

/-- The final object member: value, then the closing brace. -/
theorem parseJsonMembers_step_close (f : ℕ) (k : List Char) {s r2 r3 r4 : List Char}
    {v : PyVal} {acc : List (String × PyVal)}
    (hs : skipWs s = '"' :: (k ++ ('"' :: (':' :: r2))))
    (hk : ∀ c ∈ k, jsonSafeChar c = true)
    (hv : parseJsonVal (f+1) r2 = some (v, r3))
    (hr : skipWs r3 = '}' :: r4) :
    parseJsonMembers (f+1+1) s acc = some (.dict (acc ++ [(String.mk k, v)]), r4) := by
  conv_lhs => unfold parseJsonMembers
  rw [hs]
  dsimp only
  rw [if_pos rfl, scanStr_safe k hk (':' :: r2)]
  dsimp only
  rw [skipWs_not_ws ':' r2 rfl]
  dsimp only
  rw [if_pos rfl, hv]
  dsimp only
  rw [hr]
  dsimp only
  rw [if_neg (show ¬('\x7d' = ',') from by decide), if_pos rfl]

/-- One array element followed by a comma. -/
theorem parseJsonElems_step_comma (f : ℕ) {s r1 r2 : List Char} {v : PyVal}
    {acc : List PyVal}
    (hv : parseJsonVal (f+1) s = some (v, r1))
    (hr : skipWs r1 = ',' :: r2) :
    parseJsonElems (f+1+1) s acc = parseJsonElems (f+1) r2 (acc ++ [v]) := by
  conv_lhs => unfold parseJsonElems
  rw [hv]
  dsimp only
  rw [hr]
  dsimp only
  rw [if_pos rfl]

/-- The final array element, then the closing bracket. -/
theorem parseJsonElems_step_close (f : ℕ) {s r1 r2 : List Char} {v : PyVal}
    {acc : List PyVal}
    (hv : parseJsonVal (f+1) s = some (v, r1))
    (hr : skipWs r1 = ']' :: r2) :
    parseJsonElems (f+1+1) s acc = some (.list (acc ++ [v]), r2) := by
  conv_lhs => unfold parseJsonElems
  rw [hv]
  dsimp only
  rw [hr]
  dsimp only
  rw [if_neg (show ¬(']' = ',') from by decide), if_pos rfl]

/-- The `search_suggestions` value of the fallback template: a two-element
array of string literals, each embedding the (safe) claim snippet. -/
theorem suggVal_parse (f : ℕ) (u : List Char) {s tail : List Char}
    (hs : skipWs s = '[' :: ('"' :: (("verify ".data ++ u) ++
      ('"' :: (',' :: (' ' :: ('"' :: (("fact check ".data ++ u) ++
      ('"' :: (']' :: tail))))))))))
    (hu : ∀ c ∈ u, jsonSafeChar c = true) :
    parseJsonVal (f+1+1+1+1) s
      = some (.list [.str ("verify " ++ String.mk u), .str ("fact check " ++ String.mk u)],
          tail) := by
  have h1 : ∀ c ∈ "verify ".data ++ u, jsonSafeChar c = true :=
    jsonSafeChar_append _ _ (by decide) hu
  have h2 : ∀ c ∈ "fact check ".data ++ u, jsonSafeChar c = true :=
    jsonSafeChar_append _ _ (by decide) hu
  unfold parseJsonVal
  rw [hs]
  dsimp only
  rw [if_neg (show ¬('[' = '\x7b') from by decide), if_pos rfl,
    skipWs_not_ws '"' _ rfl]
  dsimp only
  rw [if_neg (show ¬('"' = ']') from by decide)]
  have hv1 : parseJsonVal (f+1+1) ('"' :: (("verify ".data ++ u) ++
      ('"' :: (',' :: (' ' :: ('"' :: (("fact check ".data ++ u) ++
      ('"' :: (']' :: tail)))))))))
      = some (.str (String.mk ("verify ".data ++ u)),
          ',' :: (' ' :: ('"' :: (("fact check ".data ++ u) ++ ('"' :: (']' :: tail)))))) :=
    parseJsonVal_strLit (f+1) ("verify ".data ++ u) rfl h1
  have hv2 : parseJsonVal (f+1) (' ' :: ('"' :: (("fact check ".data ++ u) ++
      ('"' :: (']' :: tail)))))
      = some (.str (String.mk ("fact check ".data ++ u)), ']' :: tail) :=
    parseJsonVal_strLit f ("fact check ".data ++ u) rfl h2
  refine ((parseJsonElems_step_comma (f+1) hv1 (skipWs_not_ws ',' _ rfl)).trans ?_)
  exact parseJsonElems_step_close f hv2 (skipWs_not_ws ']' tail rfl)

/-- The fallback template parses: for any safe verdict and analysis strings,
any snippet of safe characters, and a confidence literal whose number scan is
given by `hq`, `json.loads` on the template yields exactly the expected
record. -/
theorem fallback_template_loads (verdict conf analysis : String) (q : ℚ) (u : List Char)
    (hV : ∀ c ∈ verdict.data, jsonSafeChar c = true)
    (hA : ∀ c ∈ analysis.data, jsonSafeChar c = true)
    (hu : ∀ c ∈ u, jsonSafeChar c = true)
    (hq : ∀ f t, parseJsonVal (f+1) (' ' :: (conf.data ++ (',' :: t)))
      = some (.float q, ',' :: t)) :
    pyJsonLoads (templateStr verdict conf analysis (String.mk u))
      = some (fallbackRecord verdict q analysis (String.mk u)) := by
  have hdata : (templateStr verdict conf analysis (String.mk u)).data = ("\x7b\n        \"verdict\": \"".data ++ (verdict.data ++ ("\",\n        \"confidence_score\": ".data ++ (conf.data ++ (",\n        \"detailed_analysis\": \"".data ++ (analysis.data ++ ("\",\n        \"search_suggestions\": [\"verify ".data ++ (u ++ ("\", \"fact check ".data ++ (u ++ "\"],\n        \"key_evidence_points\": [\"Analysis limited due to API constraints\"],\n        \"credibility_assessment\": \"Limited assessment available\",\n        \"context_factors\": \"API rate limiting prevented full analysis\"\n    \x7d".data)))))))))) := by
    simp only [templateStr, String.data_append, List.append_assoc]
    rfl
  have htop : parseJsonVal 20 (templateStr verdict conf analysis (String.mk u)).data
      = some (fallbackRecord verdict q analysis (String.mk u), []) := by
    rw [hdata]
    have hobj1 : skipWs ("\x7b\n        \"verdict\": \"".data ++ (verdict.data ++ ("\",\n        \"confidence_score\": ".data ++ (conf.data ++ (",\n        \"detailed_analysis\": \"".data ++ (analysis.data ++ ("\",\n        \"search_suggestions\": [\"verify ".data ++ (u ++ ("\", \"fact check ".data ++ (u ++ "\"],\n        \"key_evidence_points\": [\"Analysis limited due to API constraints\"],\n        \"credibility_assessment\": \"Limited assessment available\",\n        \"context_factors\": \"API rate limiting prevented full analysis\"\n    \x7d".data)))))))))) = '\x7b' :: ("\n        \"verdict\": \"".data ++ (verdict.data ++ ("\",\n        \"confidence_score\": ".data ++ (conf.data ++ (",\n        \"detailed_analysis\": \"".data ++ (analysis.data ++ ("\",\n        \"search_suggestions\": [\"verify ".data ++ (u ++ ("\", \"fact check ".data ++ (u ++ "\"],\n        \"key_evidence_points\": [\"Analysis limited due to API constraints\"],\n        \"credibility_assessment\": \"Limited assessment available\",\n        \"context_factors\": \"API rate limiting prevented full analysis\"\n    \x7d".data)))))))))) := rfl
    have hobj2 : skipWs ("\n        \"verdict\": \"".data ++ (verdict.data ++ ("\",\n        \"confidence_score\": ".data ++ (conf.data ++ (",\n        \"detailed_analysis\": \"".data ++ (analysis.data ++ ("\",\n        \"search_suggestions\": [\"verify ".data ++ (u ++ ("\", \"fact check ".data ++ (u ++ "\"],\n        \"key_evidence_points\": [\"Analysis limited due to API constraints\"],\n        \"credibility_assessment\": \"Limited assessment available\",\n        \"context_factors\": \"API rate limiting prevented full analysis\"\n    \x7d".data)))))))))) = '"' :: ("verdict\": \"".data ++ (verdict.data ++ ("\",\n        \"confidence_score\": ".data ++ (conf.data ++ (",\n        \"detailed_analysis\": \"".data ++ (analysis.data ++ ("\",\n        \"search_suggestions\": [\"verify ".data ++ (u ++ ("\", \"fact check ".data ++ (u ++ "\"],\n        \"key_evidence_points\": [\"Analysis limited due to API constraints\"],\n        \"credibility_assessment\": \"Limited assessment available\",\n        \"context_factors\": \"API rate limiting prevented full analysis\"\n    \x7d".data)))))))))) := rfl
    have hs1 : skipWs ('"' :: ("verdict\": \"".data ++ (verdict.data ++ ("\",\n        \"confidence_score\": ".data ++ (conf.data ++ (",\n        \"detailed_analysis\": \"".data ++ (analysis.data ++ ("\",\n        \"search_suggestions\": [\"verify ".data ++ (u ++ ("\", \"fact check ".data ++ (u ++ "\"],\n        \"key_evidence_points\": [\"Analysis limited due to API constraints\"],\n        \"credibility_assessment\": \"Limited assessment available\",\n        \"context_factors\": \"API rate limiting prevented full analysis\"\n    \x7d".data))))))))))) = '"' :: ("verdict".data ++ ('"' :: (':' :: (' ' :: ('"' :: (verdict.data ++ ("\",\n        \"confidence_score\": ".data ++ (conf.data ++ (",\n        \"detailed_analysis\": \"".data ++ (analysis.data ++ ("\",\n        \"search_suggestions\": [\"verify ".data ++ (u ++ ("\", \"fact check ".data ++ (u ++ "\"],\n        \"key_evidence_points\": [\"Analysis limited due to API constraints\"],\n        \"credibility_assessment\": \"Limited assessment available\",\n        \"context_factors\": \"API rate limiting prevented full analysis\"\n    \x7d".data)))))))))))))) := rfl
    have hv1 : parseJsonVal (17+1) (' ' :: ('"' :: (verdict.data ++ ("\",\n        \"confidence_score\": ".data ++ (conf.data ++ (",\n        \"detailed_analysis\": \"".data ++ (analysis.data ++ ("\",\n        \"search_suggestions\": [\"verify ".data ++ (u ++ ("\", \"fact check ".data ++ (u ++ "\"],\n        \"key_evidence_points\": [\"Analysis limited due to API constraints\"],\n        \"credibility_assessment\": \"Limited assessment available\",\n        \"context_factors\": \"API rate limiting prevented full analysis\"\n    \x7d".data)))))))))))
        = some (.str (String.mk verdict.data), (",\n        \"confidence_score\": ".data ++ (conf.data ++ (",\n        \"detailed_analysis\": \"".data ++ (analysis.data ++ ("\",\n        \"search_suggestions\": [\"verify ".data ++ (u ++ ("\", \"fact check ".data ++ (u ++ "\"],\n        \"key_evidence_points\": [\"Analysis limited due to API constraints\"],\n        \"credibility_assessment\": \"Limited assessment available\",\n        \"context_factors\": \"API rate limiting prevented full analysis\"\n    \x7d".data))))))))) :=
      parseJsonVal_strLit 17 verdict.data rfl hV
    have hr1 : skipWs (",\n        \"confidence_score\": ".data ++ (conf.data ++ (",\n        \"detailed_analysis\": \"".data ++ (analysis.data ++ ("\",\n        \"search_suggestions\": [\"verify ".data ++ (u ++ ("\", \"fact check ".data ++ (u ++ "\"],\n        \"key_evidence_points\": [\"Analysis limited due to API constraints\"],\n        \"credibility_assessment\": \"Limited assessment available\",\n        \"context_factors\": \"API rate limiting prevented full analysis\"\n    \x7d".data)))))))) = ',' :: ("\n        \"confidence_score\": ".data ++ (conf.data ++ (",\n        \"detailed_analysis\": \"".data ++ (analysis.data ++ ("\",\n        \"search_suggestions\": [\"verify ".data ++ (u ++ ("\", \"fact check ".data ++ (u ++ "\"],\n        \"key_evidence_points\": [\"Analysis limited due to API constraints\"],\n        \"credibility_assessment\": \"Limited assessment available\",\n        \"context_factors\": \"API rate limiting prevented full analysis\"\n    \x7d".data)))))))) := rfl
    have hs2 : skipWs ("\n        \"confidence_score\": ".data ++ (conf.data ++ (",\n        \"detailed_analysis\": \"".data ++ (analysis.data ++ ("\",\n        \"search_suggestions\": [\"verify ".data ++ (u ++ ("\", \"fact check ".data ++ (u ++ "\"],\n        \"key_evidence_points\": [\"Analysis limited due to API constraints\"],\n        \"credibility_assessment\": \"Limited assessment available\",\n        \"context_factors\": \"API rate limiting prevented full analysis\"\n    \x7d".data)))))))) = '"' :: ("confidence_score".data ++ ('"' :: (':' :: (' ' :: (conf.data ++ (',' :: ("\n        \"detailed_analysis\": \"".data ++ (analysis.data ++ ("\",\n        \"search_suggestions\": [\"verify ".data ++ (u ++ ("\", \"fact check ".data ++ (u ++ "\"],\n        \"key_evidence_points\": [\"Analysis limited due to API constraints\"],\n        \"credibility_assessment\": \"Limited assessment available\",\n        \"context_factors\": \"API rate limiting prevented full analysis\"\n    \x7d".data)))))))))))) := rfl
    have hv2 := hq 16 ("\n        \"detailed_analysis\": \"".data ++ (analysis.data ++ ("\",\n        \"search_suggestions\": [\"verify ".data ++ (u ++ ("\", \"fact check ".data ++ (u ++ "\"],\n        \"key_evidence_points\": [\"Analysis limited due to API constraints\"],\n        \"credibility_assessment\": \"Limited assessment available\",\n        \"context_factors\": \"API rate limiting prevented full analysis\"\n    \x7d".data))))))
    have hr2 : skipWs (',' :: ("\n        \"detailed_analysis\": \"".data ++ (analysis.data ++ ("\",\n        \"search_suggestions\": [\"verify ".data ++ (u ++ ("\", \"fact check ".data ++ (u ++ "\"],\n        \"key_evidence_points\": [\"Analysis limited due to API constraints\"],\n        \"credibility_assessment\": \"Limited assessment available\",\n        \"context_factors\": \"API rate limiting prevented full analysis\"\n    \x7d".data))))))) = ',' :: ("\n        \"detailed_analysis\": \"".data ++ (analysis.data ++ ("\",\n        \"search_suggestions\": [\"verify ".data ++ (u ++ ("\", \"fact check ".data ++ (u ++ "\"],\n        \"key_evidence_points\": [\"Analysis limited due to API constraints\"],\n        \"credibility_assessment\": \"Limited assessment available\",\n        \"context_factors\": \"API rate limiting prevented full analysis\"\n    \x7d".data)))))) := rfl
    have hs3 : skipWs ("\n        \"detailed_analysis\": \"".data ++ (analysis.data ++ ("\",\n        \"search_suggestions\": [\"verify ".data ++ (u ++ ("\", \"fact check ".data ++ (u ++ "\"],\n        \"key_evidence_points\": [\"Analysis limited due to API constraints\"],\n        \"credibility_assessment\": \"Limited assessment available\",\n        \"context_factors\": \"API rate limiting prevented full analysis\"\n    \x7d".data)))))) = '"' :: ("detailed_analysis".data ++ ('"' :: (':' :: (' ' :: ('"' :: (analysis.data ++ ("\",\n        \"search_suggestions\": [\"verify ".data ++ (u ++ ("\", \"fact check ".data ++ (u ++ "\"],\n        \"key_evidence_points\": [\"Analysis limited due to API constraints\"],\n        \"credibility_assessment\": \"Limited assessment available\",\n        \"context_factors\": \"API rate limiting prevented full analysis\"\n    \x7d".data)))))))))) := rfl
    have hv3 : parseJsonVal (15+1) (' ' :: ('"' :: (analysis.data ++ ("\",\n        \"search_suggestions\": [\"verify ".data ++ (u ++ ("\", \"fact check ".data ++ (u ++ "\"],\n        \"key_evidence_points\": [\"Analysis limited due to API constraints\"],\n        \"credibility_assessment\": \"Limited assessment available\",\n        \"context_factors\": \"API rate limiting prevented full analysis\"\n    \x7d".data)))))))
        = some (.str (String.mk analysis.data), (",\n        \"search_suggestions\": [\"verify ".data ++ (u ++ ("\", \"fact check ".data ++ (u ++ "\"],\n        \"key_evidence_points\": [\"Analysis limited due to API constraints\"],\n        \"credibility_assessment\": \"Limited assessment available\",\n        \"context_factors\": \"API rate limiting prevented full analysis\"\n    \x7d".data))))) :=
      parseJsonVal_strLit 15 analysis.data rfl hA
    have hr3 : skipWs (",\n        \"search_suggestions\": [\"verify ".data ++ (u ++ ("\", \"fact check ".data ++ (u ++ "\"],\n        \"key_evidence_points\": [\"Analysis limited due to API constraints\"],\n        \"credibility_assessment\": \"Limited assessment available\",\n        \"context_factors\": \"API rate limiting prevented full analysis\"\n    \x7d".data)))) = ',' :: ("\n        \"search_suggestions\": [\"verify ".data ++ (u ++ ("\", \"fact check ".data ++ (u ++ "\"],\n        \"key_evidence_points\": [\"Analysis limited due to API constraints\"],\n        \"credibility_assessment\": \"Limited assessment available\",\n        \"context_factors\": \"API rate limiting prevented full analysis\"\n    \x7d".data)))) := rfl
    have hs4 : skipWs ("\n        \"search_suggestions\": [\"verify ".data ++ (u ++ ("\", \"fact check ".data ++ (u ++ "\"],\n        \"key_evidence_points\": [\"Analysis limited due to API constraints\"],\n        \"credibility_assessment\": \"Limited assessment available\",\n        \"context_factors\": \"API rate limiting prevented full analysis\"\n    \x7d".data)))) = '"' :: ("search_suggestions".data ++ ('"' :: (':' :: (' ' :: ('[' :: ('"' :: (("verify ".data ++ u) ++ ('"' :: (',' :: (' ' :: ('"' :: (("fact check ".data ++ u) ++ ('"' :: (']' :: ",\n        \"key_evidence_points\": [\"Analysis limited due to API constraints\"],\n        \"credibility_assessment\": \"Limited assessment available\",\n        \"context_factors\": \"API rate limiting prevented full analysis\"\n    \x7d".data)))))))))))))) := rfl
    have hv4 : parseJsonVal (11+1+1+1+1) (' ' :: ('[' :: ('"' :: (("verify ".data ++ u) ++ ('"' :: (',' :: (' ' :: ('"' :: (("fact check ".data ++ u) ++ ('"' :: (']' :: ",\n        \"key_evidence_points\": [\"Analysis limited due to API constraints\"],\n        \"credibility_assessment\": \"Limited assessment available\",\n        \"context_factors\": \"API rate limiting prevented full analysis\"\n    \x7d".data)))))))))))
        = some (.list [.str ("verify " ++ String.mk u), .str ("fact check " ++ String.mk u)],
            ",\n        \"key_evidence_points\": [\"Analysis limited due to API constraints\"],\n        \"credibility_assessment\": \"Limited assessment available\",\n        \"context_factors\": \"API rate limiting prevented full analysis\"\n    \x7d".data) :=
      suggVal_parse 11 u rfl hu
    have hr4 : skipWs ",\n        \"key_evidence_points\": [\"Analysis limited due to API constraints\"],\n        \"credibility_assessment\": \"Limited assessment available\",\n        \"context_factors\": \"API rate limiting prevented full analysis\"\n    \x7d".data = ',' :: "\n        \"key_evidence_points\": [\"Analysis limited due to API constraints\"],\n        \"credibility_assessment\": \"Limited assessment available\",\n        \"context_factors\": \"API rate limiting prevented full analysis\"\n    \x7d".data := rfl
    have hs5 : skipWs "\n        \"key_evidence_points\": [\"Analysis limited due to API constraints\"],\n        \"credibility_assessment\": \"Limited assessment available\",\n        \"context_factors\": \"API rate limiting prevented full analysis\"\n    \x7d".data = '"' :: ("key_evidence_points".data ++ ('"' :: (':' :: " [\"Analysis limited due to API constraints\"],\n        \"credibility_assessment\": \"Limited assessment available\",\n        \"context_factors\": \"API rate limiting prevented full analysis\"\n    \x7d".data))) := rfl
    have hv5 : parseJsonVal (13+1) " [\"Analysis limited due to API constraints\"],\n        \"credibility_assessment\": \"Limited assessment available\",\n        \"context_factors\": \"API rate limiting prevented full analysis\"\n    \x7d".data
        = some (.list [.str "Analysis limited due to API constraints"], ",\n        \"credibility_assessment\": \"Limited assessment available\",\n        \"context_factors\": \"API rate limiting prevented full analysis\"\n    \x7d".data) := rfl
    have hr5 : skipWs ",\n        \"credibility_assessment\": \"Limited assessment available\",\n        \"context_factors\": \"API rate limiting prevented full analysis\"\n    \x7d".data = ',' :: "\n        \"credibility_assessment\": \"Limited assessment available\",\n        \"context_factors\": \"API rate limiting prevented full analysis\"\n    \x7d".data := rfl
    have hs6 : skipWs "\n        \"credibility_assessment\": \"Limited assessment available\",\n        \"context_factors\": \"API rate limiting prevented full analysis\"\n    \x7d".data = '"' :: ("credibility_assessment".data ++ ('"' :: (':' :: " \"Limited assessment available\",\n        \"context_factors\": \"API rate limiting prevented full analysis\"\n    \x7d".data))) := rfl
    have hv6 : parseJsonVal (12+1) " \"Limited assessment available\",\n        \"context_factors\": \"API rate limiting prevented full analysis\"\n    \x7d".data
        = some (.str "Limited assessment available", ",\n        \"context_factors\": \"API rate limiting prevented full analysis\"\n    \x7d".data) := rfl
    have hr6 : skipWs ",\n        \"context_factors\": \"API rate limiting prevented full analysis\"\n    \x7d".data = ',' :: "\n        \"context_factors\": \"API rate limiting prevented full analysis\"\n    \x7d".data := rfl
    have hs7 : skipWs "\n        \"context_factors\": \"API rate limiting prevented full analysis\"\n    \x7d".data = '"' :: ("context_factors".data ++ ('"' :: (':' :: " \"API rate limiting prevented full analysis\"\n    \x7d".data))) := rfl
    have hv7 : parseJsonVal (11+1) " \"API rate limiting prevented full analysis\"\n    \x7d".data
        = some (.str "API rate limiting prevented full analysis", "\n    \x7d".data) := rfl
    have hr7 : skipWs "\n    \x7d".data = '\x7d' :: ([] : List Char) := rfl
    refine (parseJsonVal_obj 19 hobj1 hobj2).trans ?_
    refine (parseJsonMembers_step_comma 17 "verdict".data hs1 (by decide) hv1 hr1).trans ?_
    refine (parseJsonMembers_step_comma 16 "confidence_score".data hs2 (by decide) hv2 hr2).trans ?_
    refine (parseJsonMembers_step_comma 15 "detailed_analysis".data hs3 (by decide) hv3 hr3).trans ?_
    refine (parseJsonMembers_step_comma 14 "search_suggestions".data hs4 (by decide) hv4 hr4).trans ?_
    refine (parseJsonMembers_step_comma 13 "key_evidence_points".data hs5 (by decide) hv5 hr5).trans ?_
    refine (parseJsonMembers_step_comma 12 "credibility_assessment".data hs6 (by decide) hv6 hr6).trans ?_
    exact parseJsonMembers_step_close 11 "context_factors".data hs7 (by decide) hv7 hr7
  have hlen20 : 20 ≤ 2 * (templateStr verdict conf analysis (String.mk u)).length + 2 := by
    have h1 : (templateStr verdict conf analysis (String.mk u)).length
        = ((templateStr verdict conf analysis (String.mk u)).data).length := rfl
    have h2 := congrArg List.length hdata
    rw [h1, h2, List.length_append]
    have h3 : 9 ≤ ("\x7b\n        \"verdict\": \"".data).length := by decide
    omega
  have hfin := (parseJson_mono 20
    (2 * (templateStr verdict conf analysis (String.mk u)).length + 2) hlen20).1 _ _ htop
  unfold pyJsonLoads
  rw [hfin]
  rfl

/-- The fallback text is the template instantiated at the keyword-scan
outcome and the 30-character claim snippet. -/
theorem create_fallback_eq_template (prompt : String) (vv cc aa : String)
    (h : fallbackAssessment (strToLower (claimTextOf prompt)) = (vv, cc, aa)) :
    _create_fallback_analysis prompt
      = templateStr vv cc aa (strTake (claimTextOf prompt) 30) := by
  unfold _create_fallback_analysis
  dsimp only
  rw [h]
  rfl

/-- C8 (amended): whenever the 30-character claim snippet contains no quote,
backslash or control character, the text fallback generator returns a string
that `json.loads` parses as exactly the structured record the claim verifier
expects — verdict `Contradicted` with confidence 0.8 if a known-false
indicator occurs (case-insensitively) in the claim text, else `Supported`
with 0.8 if a known-true indicator occurs, else `InsufficientInfo` with
confidence 0.5.  The safety condition cannot be dropped: the snippet is
interpolated unescaped into the template, and a quote in it breaks the JSON
(see the counterexample theorem). -/
theorem fallback_generator_parses (prompt : String)
    (hsafe : ∀ c ∈ (strTake (claimTextOf prompt) 30).data, jsonSafeChar c = true) :
    (false_indicators.any (fun ind => strContains (strToLower (claimTextOf prompt)) ind) = true →
      pyJsonLoads (_create_fallback_analysis prompt)
        = some (fallbackRecord "Contradicted" (mkRat 8 10)
            "Limited analysis due to API constraints. This appears to be a commonly debunked claim."
            (strTake (claimTextOf prompt) 30)))
    ∧ (false_indicators.any (fun ind => strContains (strToLower (claimTextOf prompt)) ind) = false →
       true_indicators.any (fun ind => strContains (strToLower (claimTextOf prompt)) ind) = true →
      pyJsonLoads (_create_fallback_analysis prompt)
        = some (fallbackRecord "Supported" (mkRat 8 10)
            "Limited analysis due to API constraints. This appears to be a well-established fact."
            (strTake (claimTextOf prompt) 30)))
    ∧ (false_indicators.any (fun ind => strContains (strToLower (claimTextOf prompt)) ind) = false →
       true_indicators.any (fun ind => strContains (strToLower (claimTextOf prompt)) ind) = false →
      pyJsonLoads (_create_fallback_analysis prompt)
        = some (fallbackRecord "InsufficientInfo" (mkRat 5 10)
            "Limited analysis due to API constraints. Unable to verify due to API limitations."
            (strTake (claimTextOf prompt) 30))) := by
  refine ⟨fun hF => ?_, fun hF hT => ?_, fun hF hT => ?_⟩
  · rw [create_fallback_eq_template prompt "Contradicted" "0.8"
      "Limited analysis due to API constraints. This appears to be a commonly debunked claim."
      (by unfold fallbackAssessment; rw [if_pos hF])]
    exact fallback_template_loads "Contradicted" "0.8"
      "Limited analysis due to API constraints. This appears to be a commonly debunked claim."
      (mkRat 8 10) (strTake (claimTextOf prompt) 30).data
      (by decide) (by decide) hsafe (fun f t => rfl)
  · rw [create_fallback_eq_template prompt "Supported" "0.8"
      "Limited analysis due to API constraints. This appears to be a well-established fact."
      (by unfold fallbackAssessment
          rw [hF, if_neg (show ¬(false = true) from by decide), if_pos hT])]
    exact fallback_template_loads "Supported" "0.8"
      "Limited analysis due to API constraints. This appears to be a well-established fact."
      (mkRat 8 10) (strTake (claimTextOf prompt) 30).data
      (by decide) (by decide) hsafe (fun f t => rfl)
  · rw [create_fallback_eq_template prompt "InsufficientInfo" "0.5"
      "Limited analysis due to API constraints. Unable to verify due to API limitations."
      (by unfold fallbackAssessment
          rw [hF, if_neg (show ¬(false = true) from by decide), hT,
            if_neg (show ¬(false = true) from by decide)])]
    exact fallback_template_loads "InsufficientInfo" "0.5"
      "Limited analysis due to API constraints. Unable to verify due to API limitations."
      (mkRat 5 10) (strTake (claimTextOf prompt) 30).data
      (by decide) (by decide) hsafe (fun f t => rfl)

/-- C8 witness: a concrete false-indicator prompt with a safe snippet parses
to the Contradicted/0.8 record. -/
theorem fallback_generator_parses_witness :
    pyJsonLoads (_create_fallback_analysis "Claim: The earth is flat")
      = some (fallbackRecord "Contradicted" (mkRat 8 10)
          "Limited analysis due to API constraints. This appears to be a commonly debunked claim."
          (strTake (claimTextOf "Claim: The earth is flat") 30)) :=
  (fallback_generator_parses "Claim: The earth is flat" (by decide)).1 (by decide)

/-- C8 (counterexample to the unamended claim): a prompt whose claim text
carries a double quote inside its first 30 characters makes the fallback text
invalid JSON — `json.loads` fails on it, so the claim verifier cannot parse
the record at all. -/
theorem fallback_generator_unparseable :
    pyJsonLoads (_create_fallback_analysis "Claim: He said \"no\" to them")
      = Option.none := rfl

end Veritas
